import Mathlib

/-!
Discrete-time control primitives (transformations, controllers, PLLs)

Shallow embedding of `API/transformations.cpp`, `API/controllers.cpp` and
`API/PLLs.cpp`.  A C `float` is read as an element of an arbitrary linearly
ordered field `K` (so the development can be run over `ℚ` and instantiated at
`ℝ`); every routine that mutates `*me` becomes a function that returns the new
record together with the returned value.  The libm routines `sin` and `cos`
are passed as the explicit arguments `csin` and `ccos`; the theorems about
rotations instantiate them with `Real.sin` and `Real.cos`.
-/

namespace Imperix

variable {K : Type} [LinearOrderedField K]

/-! ## transformations.h / transformations.cpp -/

/-- Three-phase quantity in complex form (`SpaceVector`, transformations.h). -/
structure SpaceVector (K : Type) where
  real : K
  imaginary : K
  offset : K
deriving DecidableEq

/-- Three-phase quantity in time domain (`TimeDomain`, transformations.h). -/
structure TimeDomain (K : Type) where
  A : K
  B : K
  C : K
deriving DecidableEq

/-- Source `#define PI 3.141592654` -/
def PI : K := 3141592654 / 1000000000

/-- Source `#define TWOPI 6.283185307` -/
def TWOPI : K := 6283185307 / 1000000000

/-- Source `float ONE_OVER_SQRT_3 = 0.577350269;`: the value the `float` global
holds, the binary32 number nearest to the literal, 4843165 / 2^23 (bit pattern
0x3f13cd3a). -/
def ONE_OVER_SQRT_3 : K := 4843165 / 8388608

/-- Source `abc2ABG` (transformations.cpp 17-22). -/
def abc2ABG (physical : TimeDomain K) : SpaceVector K :=
  { real := (1 / 3) * (2 * physical.A - physical.B - physical.C)
    imaginary := ONE_OVER_SQRT_3 * (physical.B - physical.C)
    offset := (1 / 3) * (physical.A + physical.B + physical.C) }

/-- Source `ABG2DQ0` (transformations.cpp 33-41); `csin`, `ccos` are libm's `sin`, `cos`. -/
def ABG2DQ0 (csin ccos : K → K) (fixed : SpaceVector K) (theta : K) : SpaceVector K :=
  let cosTheta := ccos theta
  let sinTheta := csin theta
  { real := cosTheta * fixed.real + sinTheta * fixed.imaginary
    imaginary := -sinTheta * fixed.real + cosTheta * fixed.imaginary
    offset := fixed.offset }

/-- Source `DQ02ABG` (transformations.cpp 44-52); `csin`, `ccos` are libm's `sin`, `cos`. -/
def DQ02ABG (csin ccos : K → K) (rotating : SpaceVector K) (theta : K) : SpaceVector K :=
  let cosTheta := ccos theta
  let sinTheta := csin theta
  { real := cosTheta * rotating.real - sinTheta * rotating.imaginary
    imaginary := sinTheta * rotating.real + cosTheta * rotating.imaginary
    offset := rotating.offset }

/-- Pseudo-object of the double synchronous reference frame decomposition
(`Sequences`, transformations.h). -/
structure Sequences (K : Type) where
  dqpos : SpaceVector K
  dqneg : SpaceVector K
  pos_lpf : SpaceVector K
  neg_lpf : SpaceVector K
  k : K
deriving DecidableEq

/-- Source `RunDSRF` (transformations.cpp 93-130): the new pseudo-object; `csin`,
`ccos` are libm's `sin`, `cos`. -/
def RunDSRF (csin ccos : K → K) (me : Sequences K) (physical : TimeDomain K) (theta : K) :
    Sequences K :=
  let cosTheta := ccos theta
  let sinTheta := csin theta
  let cos2Theta := ccos (2 * theta)
  let sin2Theta := csin (2 * theta)
  let fixed := abc2ABG physical
  let pos_real := cosTheta * fixed.real + sinTheta * fixed.imaginary
  let pos_imaginary := -sinTheta * fixed.real + cosTheta * fixed.imaginary
  let neg_real := cosTheta * fixed.real - sinTheta * fixed.imaginary
  let neg_imaginary := sinTheta * fixed.real + cosTheta * fixed.imaginary
  let neg_fb_real := cos2Theta * me.pos_lpf.real - sin2Theta * me.pos_lpf.imaginary
  let neg_fb_imaginary := sin2Theta * me.pos_lpf.real + cos2Theta * me.pos_lpf.imaginary
  let pos_fb_real := cos2Theta * me.neg_lpf.real + sin2Theta * me.neg_lpf.imaginary
  let pos_fb_imaginary := -sin2Theta * me.neg_lpf.real + cos2Theta * me.neg_lpf.imaginary
  let dqpos : SpaceVector K :=
    { me.dqpos with real := pos_real - pos_fb_real, imaginary := pos_imaginary - pos_fb_imaginary }
  let dqneg : SpaceVector K :=
    { me.dqneg with real := neg_real - neg_fb_real, imaginary := neg_imaginary - neg_fb_imaginary }
  let pos_lpf : SpaceVector K :=
    { me.pos_lpf with
      real := (1 - me.k) * me.pos_lpf.real + me.k * dqpos.real
      imaginary := (1 - me.k) * me.pos_lpf.imaginary + me.k * dqpos.imaginary }
  let neg_lpf : SpaceVector K :=
    { me.neg_lpf with
      real := (1 - me.k) * me.neg_lpf.real + me.k * dqneg.real
      imaginary := (1 - me.k) * me.neg_lpf.imaginary + me.k * dqneg.imaginary }
  { me with dqpos := dqpos, dqneg := dqneg, pos_lpf := pos_lpf, neg_lpf := neg_lpf }

/-! ## controllers.h / controllers.cpp

`GetCoreState()` and `OPERATING` come from `Core/core.h`, which is not part of
the sources; the test `GetCoreState() != OPERATING` is read as `!enabled`, where
`enabled` is the "controller outputs are currently enabled" signal passed to
each call. -/

/-- Pseudo-object describing a PID controller (`PIDController`, controllers.h).
`N` is a `uint16_t`, converted to floating point where it is used. -/
structure PIDController (K : Type) where
  kp : K
  ki : K
  limup : K
  limlow : K
  N : Nat
  b : K
  ui_prev : K
  ud_prev : K
  e_prev : K
deriving DecidableEq

/-- Pseudo-object describing a proportional-resonant controller (`PRController`). -/
structure PRController (K : Type) where
  kp : K
  a1 : K
  a2 : K
  b0 : K
  b1 : K
  b2 : K
  ui_prev : K
  ui_prev2 : K
  e_prev : K
  e_prev2 : K
deriving DecidableEq

/-- Pseudo-object of the perturb-and-observe tracker (`MPPTracker`). -/
structure MPPTracker (K : Type) where
  power_prev : K
  meas_prev : K
  reference_step : K
  reference : K
  limup : K
  limlow : K
  iir_lpf : K
deriving DecidableEq

/-- Source `ConfigPIDController` (controllers.cpp 17-33). -/
def ConfigPIDController (kp ki td limup limlow tsample : K) (N : Nat) : PIDController K :=
  { kp := kp
    ki := ki
    N := N
    limup := limup
    limlow := limlow
    b := td / (td + (N : K) * tsample)
    e_prev := 0
    ui_prev := 0
    ud_prev := 0 }

/-- Source `ConfigPRController` (controllers.cpp 43-61). -/
def ConfigPRController (kp ki wres wdamp tsample : K) : PRController K :=
  let kt := 2 / tsample
  let a1 := 2 * ki * kt * wdamp
  { kp := kp
    a1 := a1
    a2 := a1
    b0 := kt * kt + 2 * kt * wdamp + wres * wres
    b1 := 2 * kt * kt - 2 * wres * wres
    b2 := kt * kt + 2 * kt * wdamp + wres * wres
    ui_prev := 0
    ui_prev2 := 0
    e_prev := 0
    e_prev2 := 0 }

/-- Source `ConfigMPPTracker` (controllers.cpp 67-75). -/
def ConfigMPPTracker (ref_step ref_init limup limlow iir_lpf : K) : MPPTracker K :=
  { power_prev := 0
    meas_prev := 0
    reference := ref_init
    reference_step := ref_step
    limup := limup
    limlow := limlow
    iir_lpf := iir_lpf }

/-- Source `RunPIDController` (controllers.cpp 81-114): new state and returned output. -/
def RunPIDController (enabled : Bool) (me : PIDController K) (error : K) :
    PIDController K × K :=
  let ui := me.ui_prev + me.ki * error
  let ud := me.b * (me.ud_prev + (me.N : K) * (error - me.e_prev))
  let u := me.kp * (error + ui + ud)
  let r : PIDController K × K :=
    if u > me.limup then
      ({ me with ui_prev := me.limup / me.kp - error - ud }, me.limup)
    else if u < me.limlow then
      ({ me with ui_prev := me.limlow / me.kp - error - ud }, me.limlow)
    else
      ({ me with ui_prev := ui }, u)
  let me1 : PIDController K := { r.1 with ud_prev := ud, e_prev := error }
  let me2 : PIDController K := if !enabled then { me1 with ui_prev := 0 } else me1
  (me2, r.2)

/-- Source `RunPIController` (controllers.cpp 122-150): new state and returned output,
in exact arithmetic; meant for `kp ≠ 0` (for `kp = 0` the source's `ki / kp` is not a
real number and the call returns NaN, see `RunPIControllerChecked`). -/
def RunPIController (enabled : Bool) (me : PIDController K) (error : K) :
    PIDController K × K :=
  let ui := me.ui_prev + me.ki / me.kp * error
  let u := me.kp * (error + ui)
  let r : PIDController K × K :=
    if u > me.limup then
      ({ me with ui_prev := me.limup / me.kp - error }, me.limup)
    else if u < me.limlow then
      ({ me with ui_prev := me.limlow / me.kp - error }, me.limlow)
    else
      ({ me with ui_prev := ui }, u)
  let me1 : PIDController K := if !enabled then { r.1 with ui_prev := 0 } else r.1
  (me1, r.2)

/-- Source `RunIController` (controllers.cpp 173-196): new state and returned output. -/
def RunIController (enabled : Bool) (me : PIDController K) (error : K) :
    PIDController K × K :=
  let ui := me.ui_prev + me.ki * error
  let r : PIDController K × K :=
    if ui > me.limup then
      ({ me with ui_prev := me.limup }, me.limup)
    else if ui < me.limlow then
      ({ me with ui_prev := me.limlow }, me.limlow)
    else
      ({ me with ui_prev := ui }, ui)
  let me1 : PIDController K := if !enabled then { r.1 with ui_prev := 0 } else r.1
  (me1, r.2)

/-- Source `RunPRController` (controllers.cpp 202-226): new state and returned output. -/
def RunPRController (enabled : Bool) (me : PRController K) (error : K) :
    PRController K × K :=
  let ua := me.a1 * me.e_prev - me.a2 * me.e_prev2
  let ui := (ua + me.b1 * me.ui_prev - me.b2 * me.ui_prev2) / me.b0
  let me1 : PRController K := { me with ui_prev2 := me.ui_prev }
  let me2 : PRController K := { me1 with ui_prev := ui }
  let me3 : PRController K := { me2 with e_prev2 := me2.e_prev }
  let me4 : PRController K := { me3 with e_prev := error }
  let me5 : PRController K :=
    if !enabled then { me4 with ui_prev := 0, ui_prev2 := 0 } else me4
  (me5, me5.kp * error + ui)

/-- Source `RunMPPTracking` (controllers.cpp 232-272): new state and returned reference. -/
def RunMPPTracking (me : MPPTracker K) (measurement power : K) : MPPTracker K × K :=
  let power := if power < 0 then 0 else power
  let measurement := if measurement < 0 then 0 else measurement
  let power_lpf := me.iir_lpf * power + (1 - me.iir_lpf) * me.power_prev
  let measurement_lpf := me.iir_lpf * measurement + (1 - me.iir_lpf) * me.meas_prev
  let delta_power := power_lpf - me.power_prev
  let delta_measurement := measurement_lpf - me.meas_prev
  let reference :=
    if delta_power ≥ 0 then
      if delta_measurement ≥ 0 then me.reference + me.reference_step
      else me.reference - me.reference_step
    else
      if me.reference > me.limup then me.reference - me.reference_step
      else if me.reference < me.limlow then me.reference + me.reference_step
      else if delta_measurement ≥ 0 then me.reference - me.reference_step
      else me.reference + me.reference_step
  ({ me with reference := reference, power_prev := power_lpf, meas_prev := measurement_lpf },
    reference)

/-! ## PLLs.h / PLLs.cpp -/

/-- State of one triple integrator (`SOGI3States`, PLLs.h). -/
structure SOGI3States (K : Type) where
  z1 : K
  z2 : K
  z3 : K
  output : K
deriving DecidableEq

/-- SOGI pseudo-object (`SOGI3Parameters`, PLLs.h); `states0` and `states1` are
the two elements of the array `states[2]`. -/
structure SOGI3Parameters (K : Type) where
  states0 : SOGI3States K
  states1 : SOGI3States K
  omega : K
  gain : K
  constant : K
deriving DecidableEq

/-- Source `DQPLLParameters` (PLLs.h). -/
structure DQPLLParameters (K : Type) where
  theta : K
  omega : K
  omega0 : K
  ts : K
  PI_reg : PIDController K
deriving DecidableEq

/-- Source `SOGIPLL1Parameters` (PLLs.h). -/
structure SOGIPLL1Parameters (K : Type) where
  theta : K
  omega : K
  omega0 : K
  ts : K
  SOGI : SOGI3Parameters K
  PI_reg : PIDController K
deriving DecidableEq

/-- Source `DSOGIPLL3Parameters` (PLLs.h). -/
structure DSOGIPLL3Parameters (K : Type) where
  theta : K
  omega : K
  omega0 : K
  ts : K
  SOGIa : SOGI3Parameters K
  SOGIb : SOGI3Parameters K
  PI_reg : PIDController K
deriving DecidableEq

/-- Pseudo-object of the fictive-axis estimator (`FAEParameters`, PLLs.h). -/
structure FAEParameters (K : Type) where
  a : K
  b : K
  state : K
deriving DecidableEq

/-- Source `ConfigFAE` (PLLs.cpp 86-94). -/
def ConfigFAE (R L tsample : K) : FAEParameters K :=
  { a := tsample / (L + R * tsample)
    b := L / (L + R * tsample)
    state := 0 }

/-- Source `RunFAE` (PLLs.cpp 277-283): new state and returned output. -/
def RunFAE (me : FAEParameters K) (delta : K) : FAEParameters K × K :=
  let me1 : FAEParameters K := { me with state := me.a * delta + me.b * me.state }
  (me1, me1.state)

/-- Source `ConfigSOGI3` (PLLs.cpp 47-64). -/
def ConfigSOGI3 (gain omega0 tsample : K) : SOGI3Parameters K :=
  { omega := omega0
    gain := gain
    constant := tsample / 12
    states0 := { z1 := 0, z2 := 0, z3 := 0, output := 0 }
    states1 := { z1 := 0, z2 := 0, z3 := 0, output := 0 } }

/-- Source `ConfigDQPLL` (PLLs.cpp 14-26). -/
def ConfigDQPLL (kp ki omega0 tsample : K) : DQPLLParameters K :=
  { omega0 := omega0
    ts := tsample
    PI_reg := ConfigPIDController kp ki 0 (1 / 10 * omega0) (-(1 / 10) * omega0) tsample 10
    theta := 0
    omega := omega0 }

/-- Source `ConfigSOGIPLL1` (PLLs.cpp 29-44). -/
def ConfigSOGIPLL1 (kp ki sogigain omega0 tsample : K) : SOGIPLL1Parameters K :=
  { SOGI := ConfigSOGI3 sogigain omega0 tsample
    PI_reg := ConfigPIDController kp ki 0 (1 / 10 * omega0) (-(1 / 10) * omega0) tsample 10
    omega0 := omega0
    ts := tsample
    theta := 0
    omega := omega0 }

/-- Source `ConfigDSOGIPLL3` (PLLs.cpp 67-83). -/
def ConfigDSOGIPLL3 (kp ki sogigain omega0 tsample : K) : DSOGIPLL3Parameters K :=
  { SOGIa := ConfigSOGI3 sogigain omega0 tsample
    SOGIb := ConfigSOGI3 sogigain omega0 tsample
    PI_reg := ConfigPIDController kp ki 0 (1 / 10 * omega0) (-(1 / 10) * omega0) tsample 10
    omega0 := omega0
    ts := tsample
    theta := 0
    omega := omega0 }

/-- Source `RunDQPLL` (PLLs.cpp 97-138): new state and returned angle, in exact
arithmetic; meant for `kp ≠ 0` (for `kp = 0` the source's `ki / kp` is not a real
number and omega and theta become NaN, see `RunDQPLLChecked`). -/
def RunDQPLL (me : DQPLLParameters K) (vin_dq0 : SpaceVector K) : DQPLLParameters K × K :=
  let ui := me.PI_reg.ui_prev + me.PI_reg.ki / me.PI_reg.kp * vin_dq0.imaginary
  let u := me.PI_reg.kp * (vin_dq0.imaginary + ui)
  let r : PIDController K × K :=
    if u > me.PI_reg.limup then
      ({ me.PI_reg with ui_prev := me.PI_reg.limup / me.PI_reg.kp - vin_dq0.imaginary },
        me.PI_reg.limup)
    else if u < me.PI_reg.limlow then
      ({ me.PI_reg with ui_prev := me.PI_reg.limlow / me.PI_reg.kp - vin_dq0.imaginary },
        me.PI_reg.limlow)
    else
      ({ me.PI_reg with ui_prev := ui }, u)
  let omega := me.omega0 + r.2
  let theta := me.theta + omega * me.ts
  let theta :=
    if theta > PI then theta - TWOPI
    else if theta < -PI then theta + TWOPI
    else theta
  ({ me with PI_reg := r.1, omega := omega, theta := theta }, theta)

/-- Source `RunSOGI3` (PLLs.cpp 141-168): new state and returned vector. -/
def RunSOGI3 (me : SOGI3Parameters K) (measurement : K) : SOGI3Parameters K × SpaceVector K :=
  let s0 : SOGI3States K := { me.states0 with z3 := me.states0.z2 }
  let s0 : SOGI3States K := { s0 with z2 := s0.z1 }
  let s0 : SOGI3States K :=
    { s0 with z1 := s0.z1 + me.constant * me.omega *
        (-me.states1.output + me.gain * (measurement - s0.output)) }
  let s1 : SOGI3States K := { me.states1 with z3 := me.states1.z2 }
  let s1 : SOGI3States K := { s1 with z2 := s1.z1 }
  let s1 : SOGI3States K := { s1 with z1 := s1.z1 + me.constant * me.omega * s0.output }
  let s0 : SOGI3States K := { s0 with output := 23 * s0.z1 - 16 * s0.z2 + 5 * s0.z3 }
  let s1 : SOGI3States K := { s1 with output := 23 * s1.z1 - 16 * s1.z2 + 5 * s1.z3 }
  ({ me with states0 := s0, states1 := s1 },
    { real := s0.output, imaginary := s1.output, offset := 0 })

/-- Source `RunSOGIPLL1` (PLLs.cpp 171-218): new state, the vector written to `*UABG`
and the returned angle, in exact arithmetic; `csin`, `ccos` are libm's `sin`, `cos`;
meant for `kp ≠ 0` (for `kp = 0` the source's `ki / kp` is not a real number and
omega and theta become NaN, see `RunSOGIPLL1Checked`). -/
def RunSOGIPLL1 (csin ccos : K → K) (me : SOGIPLL1Parameters K) (vin : K) :
    SOGIPLL1Parameters K × SpaceVector K × K :=
  let sg := RunSOGI3 me.SOGI vin
  let UABG := sg.2
  let vin_q := -csin me.theta * UABG.real + ccos me.theta * UABG.imaginary
  let ui := me.PI_reg.ui_prev + me.PI_reg.ki / me.PI_reg.kp * vin_q
  let u := me.PI_reg.kp * (vin_q + ui)
  let r : PIDController K × K :=
    if u > me.PI_reg.limup then
      ({ me.PI_reg with ui_prev := me.PI_reg.limup / me.PI_reg.kp - vin_q }, me.PI_reg.limup)
    else if u < me.PI_reg.limlow then
      ({ me.PI_reg with ui_prev := me.PI_reg.limlow / me.PI_reg.kp - vin_q }, me.PI_reg.limlow)
    else
      ({ me.PI_reg with ui_prev := ui }, u)
  let omega := me.omega0 + r.2
  let theta := me.theta + omega * me.ts
  let theta :=
    if theta > PI then theta - TWOPI
    else if theta < -PI then theta + TWOPI
    else theta
  ({ me with SOGI := sg.1, PI_reg := r.1, omega := omega, theta := theta }, UABG, theta)

/-- Source `RunDSOGIPLL3` (PLLs.cpp 221-274): new state and returned angle, in exact
arithmetic; `csin`, `ccos` are libm's `sin`, `cos`; meant for `kp ≠ 0` (for `kp = 0`
the source's `ki / kp` is not a real number and omega and theta become NaN, see
`RunDSOGIPLL3Checked`). -/
def RunDSOGIPLL3 (csin ccos : K → K) (me : DSOGIPLL3Parameters K) (vin_abg : SpaceVector K) :
    DSOGIPLL3Parameters K × K :=
  let ra := RunSOGI3 me.SOGIa vin_abg.real
  let rb := RunSOGI3 me.SOGIb vin_abg.imaginary
  let a := ra.2
  let b := rb.2
  let UABG_imaginary := a.imaginary + b.real
  let UABG_real := a.real - b.imaginary
  let vin_q := -csin me.theta * UABG_real + ccos me.theta * UABG_imaginary
  let ui := me.PI_reg.ui_prev + me.PI_reg.ki / me.PI_reg.kp * vin_q
  let u := me.PI_reg.kp * (vin_q + ui)
  let r : PIDController K × K :=
    if u > me.PI_reg.limup then
      ({ me.PI_reg with ui_prev := me.PI_reg.limup / me.PI_reg.kp - vin_q }, me.PI_reg.limup)
    else if u < me.PI_reg.limlow then
      ({ me.PI_reg with ui_prev := me.PI_reg.limlow / me.PI_reg.kp - vin_q }, me.PI_reg.limlow)
    else
      ({ me.PI_reg with ui_prev := ui }, u)
  let omega := me.omega0 + r.2
  let theta := me.theta + omega * me.ts
  let theta :=
    if theta > PI then theta - TWOPI
    else if theta < -PI then theta + TWOPI
    else theta
  ({ me with SOGIa := ra.1, SOGIb := rb.1, PI_reg := r.1, omega := omega, theta := theta },
    theta)

/-! ## The division `ki / kp` at `kp = 0`

RunPIController and the PI code inlined in the three PLL routines divide by
`me->kp`.  For `kp = 0` the float quotient `ki / kp` is an infinity or a NaN,
so `ui` is an infinity or a NaN and `u = kp * (error + ui)` is NaN; both
saturation tests are then false, the last branch stores `ui` and keeps `u`, and
the NaN is returned by RunPIController, respectively added to `omega0` and then
to `theta` by the PLL routines, whose wrap tests are false as well.  None of
these results is a real number.  The definitions above are the exact-arithmetic
reading of the routines and are meant for `kp ≠ 0`; the definitions below return
`none` where the source leaves the real numbers in this way and the result of
the exact-arithmetic routine otherwise. -/

/-- Component-wise sum of two triple-integrator states. -/
def addSOGI3States (a b : SOGI3States K) : SOGI3States K :=
  { z1 := a.z1 + b.z1
    z2 := a.z2 + b.z2
    z3 := a.z3 + b.z3
    output := a.output + b.output }

/-- Triple-integrator state scaled by `c`. -/
def scaleSOGI3States (c : K) (a : SOGI3States K) : SOGI3States K :=
  { z1 := c * a.z1
    z2 := c * a.z2
    z3 := c * a.z3
    output := c * a.output }

/-- SOGI pseudo-object of `a` (same omega, gain and constant) holding the
component-wise sum of the stored states of `a` and `b`. -/
def addSOGI3 (a b : SOGI3Parameters K) : SOGI3Parameters K :=
  { a with
    states0 := addSOGI3States a.states0 b.states0
    states1 := addSOGI3States a.states1 b.states1 }

/-- SOGI pseudo-object of `a` (same omega, gain and constant) holding the stored
states of `a` scaled by `c`. -/
def scaleSOGI3 (c : K) (a : SOGI3Parameters K) : SOGI3Parameters K :=
  { a with
    states0 := scaleSOGI3States c a.states0
    states1 := scaleSOGI3States c a.states1 }

/-- Rational enclosure of the eight values stored in a SOGI: a lower bound
(suffix `l`) and an upper bound (suffix `h`) for z1, z2, z3 and output of
`states[0]` (prefix `a`) and of `states[1]` (prefix `b`). -/
structure SOGI3Enclosure where
  a1l : ℚ
  a1h : ℚ
  a2l : ℚ
  a2h : ℚ
  a3l : ℚ
  a3h : ℚ
  aol : ℚ
  aoh : ℚ
  b1l : ℚ
  b1h : ℚ
  b2l : ℚ
  b2h : ℚ
  b3l : ℚ
  b3h : ℚ
  bol : ℚ
  boh : ℚ
deriving DecidableEq

/-- Interval image of one RunSOGI3 call with gain 1 and measurement 1, when the
product constant * omega lies in [wl, wh] with 0 ≤ wl. -/
def enclosureStep (wl wh : ℚ) (e : SOGI3Enclosure) : SOGI3Enclosure :=
  let fl := -e.boh + (1 - e.aoh)
  let fh := -e.bol + (1 - e.aol)
  let a1l := e.a1l + min (wl * fl) (wh * fl)
  let a1h := e.a1h + max (wl * fh) (wh * fh)
  let b1l := e.b1l + min (wl * e.aol) (wh * e.aol)
  let b1h := e.b1h + max (wl * e.aoh) (wh * e.aoh)
  { a1l := a1l
    a1h := a1h
    a2l := e.a1l
    a2h := e.a1h
    a3l := e.a2l
    a3h := e.a2h
    aol := 23 * a1l - 16 * e.a1h + 5 * e.a2l
    aoh := 23 * a1h - 16 * e.a1l + 5 * e.a2h
    b1l := b1l
    b1h := b1h
    b2l := e.b1l
    b2h := e.b1h
    b3l := e.b2l
    b3h := e.b2h
    bol := 23 * b1l - 16 * e.b1h + 5 * e.b2l
    boh := 23 * b1h - 16 * e.b1l + 5 * e.b2h }

/-- Both enclosed outputs lie in [-2, 2]. -/
def enclosureOk (e : SOGI3Enclosure) : Bool :=
  decide (-2 ≤ e.aol) && decide (e.aoh ≤ 2) && decide (-2 ≤ e.bol) && decide (e.boh ≤ 2)

/-- The enclosures after each of the next `n` steps all pass `enclosureOk`. -/
def enclosureCheck (wl wh : ℚ) : Nat → SOGI3Enclosure → Bool
  | 0, _ => true
  | n + 1, e => enclosureOk (enclosureStep wl wh e) && enclosureCheck wl wh n (enclosureStep wl wh e)

/-- Enclosure of the all-zero state written by ConfigSOGI3. -/
def enclosureZero : SOGI3Enclosure :=
  ⟨0, 0, 0, 0, 0, 0, 0, 0, 0, 0, 0, 0, 0, 0, 0, 0⟩

/-- Lower bound of (tsample / 12) * omega0 for tsample = 1/10000 and
omega0 = 2 * π * 50, from 3.14159265358979323846 < π. -/
def stepGainLow : ℚ := 314159265358979323846 / 120000000000000000000000

/-- Upper bound of (tsample / 12) * omega0 for tsample = 1/10000 and
omega0 = 2 * π * 50, from π < 3.14159265358979323847. -/
def stepGainHigh : ℚ := 314159265358979323847 / 120000000000000000000000

/-- The real SOGI state `s` lies within the rational enclosure `e`. -/
def Encloses (e : SOGI3Enclosure) (s : SOGI3Parameters ℝ) : Prop :=
  ((e.a1l : ℝ) ≤ s.states0.z1 ∧ s.states0.z1 ≤ (e.a1h : ℝ)) ∧
  ((e.a2l : ℝ) ≤ s.states0.z2 ∧ s.states0.z2 ≤ (e.a2h : ℝ)) ∧
  ((e.a3l : ℝ) ≤ s.states0.z3 ∧ s.states0.z3 ≤ (e.a3h : ℝ)) ∧
  ((e.aol : ℝ) ≤ s.states0.output ∧ s.states0.output ≤ (e.aoh : ℝ)) ∧
  ((e.b1l : ℝ) ≤ s.states1.z1 ∧ s.states1.z1 ≤ (e.b1h : ℝ)) ∧
  ((e.b2l : ℝ) ≤ s.states1.z2 ∧ s.states1.z2 ≤ (e.b2h : ℝ)) ∧
  ((e.b3l : ℝ) ≤ s.states1.z3 ∧ s.states1.z3 ≤ (e.b3h : ℝ)) ∧
  ((e.bol : ℝ) ≤ s.states1.output ∧ s.states1.output ≤ (e.boh : ℝ))

/-! ## Theorems: coordinate transformations -/

/-- C8: abc2ABG yields real = (2A - B - C)/3, imaginary = ONE_OVER_SQRT_3 * (B - C)
and offset = (A + B + C)/3, and the input (1, -1/2, -1/2) yields exactly (1, 0, 0). -/
theorem abc2ABG_formula (x : TimeDomain K) :
    (abc2ABG x).real = (2 * x.A - x.B - x.C) / 3 ∧
    (abc2ABG x).imaginary = ONE_OVER_SQRT_3 * (x.B - x.C) ∧
    (abc2ABG x).offset = (x.A + x.B + x.C) / 3 ∧
    abc2ABG (⟨1, -(1 / 2), -(1 / 2)⟩ : TimeDomain K) = ⟨1, 0, 0⟩ := by
  refine ⟨?_, rfl, ?_, ?_⟩
  · simp only [abc2ABG]; ring
  · simp only [abc2ABG]; ring
  · simp only [abc2ABG, SpaceVector.mk.injEq]
    refine ⟨?_, ?_, ?_⟩ <;> norm_num

/-- C9: with the real sine and cosine, DQ02ABG undoes ABG2DQ0 and ABG2DQ0 undoes
DQ02ABG at the same angle, in all three components. -/
theorem dq0_abg_roundtrip (θ : ℝ) (v : SpaceVector ℝ) :
    DQ02ABG Real.sin Real.cos (ABG2DQ0 Real.sin Real.cos v θ) θ = v ∧
    ABG2DQ0 Real.sin Real.cos (DQ02ABG Real.sin Real.cos v θ) θ = v := by
  have h := Real.sin_sq_add_cos_sq θ
  obtain ⟨re, im, off⟩ := v
  constructor
  · simp only [DQ02ABG, ABG2DQ0, SpaceVector.mk.injEq]
    refine ⟨?_, ?_, trivial⟩
    · linear_combination re * h
    · linear_combination im * h
  · simp only [DQ02ABG, ABG2DQ0, SpaceVector.mk.injEq]
    refine ⟨?_, ?_, trivial⟩
    · linear_combination re * h
    · linear_combination im * h

/-! ## Theorems: controllers -/

/-- C4: RunPIDController with kp ≠ 0 and the outputs enabled: if the unsaturated
output u = kp * (error + ui + ud) exceeds limup, the call returns limup and the
stored integral state is limup / kp - error - ud, so that
kp * (error + ui_prev' + ud) = limup; likewise with limlow when u is not above
limup and is below limlow. -/
theorem pid_antiwindup_backsolve (me : PIDController K) (error : K) (hkp : me.kp ≠ 0) :
    let ui := me.ui_prev + me.ki * error
    let ud := me.b * (me.ud_prev + (me.N : K) * (error - me.e_prev))
    let u := me.kp * (error + ui + ud)
    (u > me.limup →
      (RunPIDController true me error).2 = me.limup ∧
      (RunPIDController true me error).1.ui_prev = me.limup / me.kp - error - ud ∧
      me.kp * (error + (RunPIDController true me error).1.ui_prev + ud) = me.limup) ∧
    (¬ u > me.limup → u < me.limlow →
      (RunPIDController true me error).2 = me.limlow ∧
      (RunPIDController true me error).1.ui_prev = me.limlow / me.kp - error - ud ∧
      me.kp * (error + (RunPIDController true me error).1.ui_prev + ud) = me.limlow) := by
  dsimp only
  constructor
  · intro h1
    have e2 : (RunPIDController true me error).2 = me.limup := by
      simp only [RunPIDController, gt_iff_lt] at h1 ⊢
      rw [if_pos h1]
    have e1 : (RunPIDController true me error).1.ui_prev = me.limup / me.kp - error -
        me.b * (me.ud_prev + (me.N : K) * (error - me.e_prev)) := by
      simp only [RunPIDController, gt_iff_lt] at h1 ⊢
      rw [if_pos h1]
      simp
    refine ⟨e2, e1, ?_⟩
    rw [e1]
    field_simp
    ring
  · intro h1 h2
    have e2 : (RunPIDController true me error).2 = me.limlow := by
      simp only [RunPIDController, gt_iff_lt] at h1 h2 ⊢
      rw [if_neg h1, if_pos h2]
    have e1 : (RunPIDController true me error).1.ui_prev = me.limlow / me.kp - error -
        me.b * (me.ud_prev + (me.N : K) * (error - me.e_prev)) := by
      simp only [RunPIDController, gt_iff_lt] at h1 h2 ⊢
      rw [if_neg h1, if_pos h2]
      simp
    refine ⟨e2, e1, ?_⟩
    rw [e1]
    field_simp
    ring

/-- Witness for C4: kp = 2, ki = 1, limits [-1, 1], zero history: with error 5
(u = 20 > 1) the call returns limup = 1, and with error -5 (u = -20 < -1) it
returns limlow = -1. -/
theorem pid_antiwindup_backsolve_witness :
    (RunPIDController true (⟨2, 1, 1, -1, 10, 0, 0, 0, 0⟩ : PIDController ℚ) 5).2 = 1 ∧
    (RunPIDController true (⟨2, 1, 1, -1, 10, 0, 0, 0, 0⟩ : PIDController ℚ) (-5)).2 = -1 :=
  ⟨((pid_antiwindup_backsolve (⟨2, 1, 1, -1, 10, 0, 0, 0, 0⟩ : PIDController ℚ) 5
      (by norm_num)).1 (by norm_num)).1,
    ((pid_antiwindup_backsolve (⟨2, 1, 1, -1, 10, 0, 0, 0, 0⟩ : PIDController ℚ) (-5)
      (by norm_num)).2 (by norm_num) (by norm_num)).1⟩

/-- C5: one call with the enabled signal false leaves ui_prev = 0 after
RunPIDController, RunPIController and RunIController, and leaves
ui_prev = 0 and ui_prev2 = 0 after RunPRController, whatever the prior state
and the error. -/
theorem disable_resets_integral (me : PIDController K) (pr : PRController K) (error : K) :
    (RunPIDController false me error).1.ui_prev = 0 ∧
    (RunPIController false me error).1.ui_prev = 0 ∧
    (RunIController false me error).1.ui_prev = 0 ∧
    (RunPRController false pr error).1.ui_prev = 0 ∧
    (RunPRController false pr error).1.ui_prev2 = 0 := by
  refine ⟨?_, ?_, ?_, ?_, ?_⟩ <;>
    simp [RunPIDController, RunPIController, RunIController, RunPRController]

/-- C10: RunPIDController, with ui = ui_prev + ki * error and
ud = b * (ud_prev + N * (error - e_prev)): in every branch and for either value
of the enabled signal it stores ud_prev' = ud and e_prev' = error and leaves kp,
ki, N, b, limup and limlow unchanged; when the outputs are enabled and
limlow ≤ kp * (error + ui + ud) ≤ limup it returns kp * (error + ui + ud) and
stores ui_prev' = ui. -/
theorem pid_step_state_update (enabled : Bool) (me : PIDController K) (error : K) :
    let ui := me.ui_prev + me.ki * error
    let ud := me.b * (me.ud_prev + (me.N : K) * (error - me.e_prev))
    let u := me.kp * (error + ui + ud)
    ((RunPIDController enabled me error).1.ud_prev = ud ∧
      (RunPIDController enabled me error).1.e_prev = error ∧
      (RunPIDController enabled me error).1.kp = me.kp ∧
      (RunPIDController enabled me error).1.ki = me.ki ∧
      (RunPIDController enabled me error).1.N = me.N ∧
      (RunPIDController enabled me error).1.b = me.b ∧
      (RunPIDController enabled me error).1.limup = me.limup ∧
      (RunPIDController enabled me error).1.limlow = me.limlow) ∧
    (me.limlow ≤ u → u ≤ me.limup →
      (RunPIDController true me error).2 = u ∧
      (RunPIDController true me error).1.ui_prev = ui) := by
  dsimp only
  constructor
  · simp only [RunPIDController]
    cases enabled <;> split_ifs <;> simp_all
  · intro hl hu
    have h1 : ¬ me.kp * (error + (me.ui_prev + me.ki * error) +
        me.b * (me.ud_prev + (me.N : K) * (error - me.e_prev))) > me.limup := not_lt.mpr hu
    have h2 : ¬ me.kp * (error + (me.ui_prev + me.ki * error) +
        me.b * (me.ud_prev + (me.N : K) * (error - me.e_prev))) < me.limlow := not_lt.mpr hl
    constructor
    · simp only [RunPIDController]
      rw [if_neg h1, if_neg h2]
    · simp only [RunPIDController]
      rw [if_neg h1, if_neg h2]
      simp

/-- Witness for C10: kp = 2, ki = 1, limits [-100, 100], zero history, error 5:
u = 20 is within the limits and is returned. -/
theorem pid_step_state_update_witness :
    (RunPIDController true (⟨2, 1, 100, -100, 10, 0, 0, 0, 0⟩ : PIDController ℚ) 5).2
      = 2 * (5 + (0 + 1 * 5) + 0 * (0 + ((10 : ℕ) : ℚ) * (5 - 0))) :=
  ((pid_step_state_update true (⟨2, 1, 100, -100, 10, 0, 0, 0, 0⟩ : PIDController ℚ) 5).2
    (by norm_num) (by norm_num)).1

/-- Under a saturated-high history (ui_prev = limup / kp - e) and ki * e ≥ 0, an
enabled RunPIController call is a fixed point of the state and returns limup. -/
lemma RunPIController_fixed_high (s : PIDController K) (e : K) (hkp : s.kp ≠ 0)
    (hlim : s.limlow ≤ s.limup) (hki : 0 ≤ s.ki * e) (hui : s.ui_prev = s.limup / s.kp - e) :
    RunPIController true s e = (s, s.limup) := by
  have hu : s.kp * (e + (s.ui_prev + s.ki / s.kp * e)) = s.limup + s.ki * e := by
    rw [hui]; field_simp; ring
  rcases hki.lt_or_eq with hpos | hzero
  · have h1 : s.kp * (e + (s.ui_prev + s.ki / s.kp * e)) > s.limup := by rw [hu]; linarith
    simp only [RunPIController]
    rw [if_pos h1]
    refine Prod.ext ?_ rfl
    simp only [Bool.not_true, Bool.false_eq_true, if_false]
    rw [← hui]
  · have hz : s.ki / s.kp * e = 0 := by
      rw [div_mul_eq_mul_div, ← hzero, zero_div]
    have h1 : ¬ s.kp * (e + (s.ui_prev + s.ki / s.kp * e)) > s.limup := by
      rw [hu, ← hzero]; simp
    have h2 : ¬ s.kp * (e + (s.ui_prev + s.ki / s.kp * e)) < s.limlow := by
      rw [hu, ← hzero]; simpa using hlim
    simp only [RunPIController]
    rw [if_neg h1, if_neg h2]
    refine Prod.ext ?_ ?_
    · simp only [Bool.not_true, Bool.false_eq_true, if_false]
      rw [hz, add_zero]
    · show s.kp * (e + (s.ui_prev + s.ki / s.kp * e)) = s.limup
      rw [hu, ← hzero, add_zero]

/-- Under a saturated-low history (ui_prev = limlow / kp - e) and ki * e ≤ 0, an
enabled RunPIController call is a fixed point of the state and returns limlow. -/
lemma RunPIController_fixed_low (s : PIDController K) (e : K) (hkp : s.kp ≠ 0)
    (hlim : s.limlow ≤ s.limup) (hki : s.ki * e ≤ 0) (hui : s.ui_prev = s.limlow / s.kp - e) :
    RunPIController true s e = (s, s.limlow) := by
  have hu : s.kp * (e + (s.ui_prev + s.ki / s.kp * e)) = s.limlow + s.ki * e := by
    rw [hui]; field_simp; ring
  have h1 : ¬ s.kp * (e + (s.ui_prev + s.ki / s.kp * e)) > s.limup := by
    rw [hu]; intro h; linarith
  rcases hki.lt_or_eq with hneg | hzero
  · have h2 : s.kp * (e + (s.ui_prev + s.ki / s.kp * e)) < s.limlow := by rw [hu]; linarith
    simp only [RunPIController]
    rw [if_neg h1, if_pos h2]
    refine Prod.ext ?_ rfl
    simp only [Bool.not_true, Bool.false_eq_true, if_false]
    rw [← hui]
  · have hz : s.ki / s.kp * e = 0 := by
      rw [div_mul_eq_mul_div, hzero, zero_div]
    have h2 : ¬ s.kp * (e + (s.ui_prev + s.ki / s.kp * e)) < s.limlow := by
      rw [hu, hzero]; simp
    simp only [RunPIController]
    rw [if_neg h1, if_neg h2]
    refine Prod.ext ?_ ?_
    · simp only [Bool.not_true, Bool.false_eq_true, if_false]
      rw [hz, add_zero]
    · show s.kp * (e + (s.ui_prev + s.ki / s.kp * e)) = s.limlow
      rw [hu, hzero, add_zero]

/-- Iterating a map from a fixed point stays at the fixed point. -/
lemma iterate_of_fixed {α : Type} (f : α → α) (x : α) (h : f x = x) (n : ℕ) : f^[n] x = x :=
  Function.iterate_fixed h n

/-- C6: RunPIController with kp ≠ 0, limlow ≤ limup and the outputs enabled,
driven by a constant error e.  If ki * e ≥ 0 and the first tick saturates at
limup, then after any number n + 1 of ticks the stored integral state equals
limup / kp - e and the following tick returns exactly limup; symmetrically at
limlow when ki * e ≤ 0. -/
theorem pi_saturation_persists (me : PIDController K) (e : K) (hkp : me.kp ≠ 0)
    (hlim : me.limlow ≤ me.limup) :
    (0 ≤ me.ki * e → me.kp * (e + (me.ui_prev + me.ki / me.kp * e)) > me.limup →
      ∀ n : ℕ,
        ((fun s => (RunPIController true s e).1)^[n + 1] me).ui_prev = me.limup / me.kp - e ∧
        (RunPIController true ((fun s => (RunPIController true s e).1)^[n + 1] me) e).2
          = me.limup) ∧
    (me.ki * e ≤ 0 → ¬ me.kp * (e + (me.ui_prev + me.ki / me.kp * e)) > me.limup →
      me.kp * (e + (me.ui_prev + me.ki / me.kp * e)) < me.limlow →
      ∀ n : ℕ,
        ((fun s => (RunPIController true s e).1)^[n + 1] me).ui_prev = me.limlow / me.kp - e ∧
        (RunPIController true ((fun s => (RunPIController true s e).1)^[n + 1] me) e).2
          = me.limlow) := by
  constructor
  · intro hki hsat n
    have hs1 : (RunPIController true me e).1 = { me with ui_prev := me.limup / me.kp - e } := by
      simp only [RunPIController]
      rw [if_pos hsat]
      simp
    have hfix := RunPIController_fixed_high { me with ui_prev := me.limup / me.kp - e } e
      hkp hlim hki rfl
    have hit : (fun s => (RunPIController true s e).1)^[n + 1] me
        = { me with ui_prev := me.limup / me.kp - e } := by
      rw [Function.iterate_succ_apply]
      show (fun s => (RunPIController true s e).1)^[n] (RunPIController true me e).1 = _
      rw [hs1]
      exact iterate_of_fixed _ _ (by show (RunPIController true _ e).1 = _; rw [hfix]) n
    rw [hit, hfix]
    exact ⟨rfl, rfl⟩
  · intro hki hnot hsat n
    have hs1 : (RunPIController true me e).1 = { me with ui_prev := me.limlow / me.kp - e } := by
      simp only [RunPIController]
      rw [if_neg hnot, if_pos hsat]
      simp
    have hfix := RunPIController_fixed_low { me with ui_prev := me.limlow / me.kp - e } e
      hkp hlim hki rfl
    have hit : (fun s => (RunPIController true s e).1)^[n + 1] me
        = { me with ui_prev := me.limlow / me.kp - e } := by
      rw [Function.iterate_succ_apply]
      show (fun s => (RunPIController true s e).1)^[n] (RunPIController true me e).1 = _
      rw [hs1]
      exact iterate_of_fixed _ _ (by show (RunPIController true _ e).1 = _; rw [hfix]) n
    rw [hit, hfix]
    exact ⟨rfl, rfl⟩

/-- Witness for C6: kp = 2, ki = 1, limits [-1, 1], zero history.  With the
constant error 5 the first tick saturates at limup (u = 15) and the tick after
three further ticks returns limup = 1; with the constant error -5 the first
tick saturates at limlow (u = -15) and the tick after three further ticks
returns limlow = -1. -/
theorem pi_saturation_persists_witness :
    (((fun s => (RunPIController true s (5 : ℚ)).1)^[3 + 1]
        (⟨2, 1, 1, -1, 10, 0, 0, 0, 0⟩ : PIDController ℚ)).ui_prev = 1 / 2 - 5 ∧
      (RunPIController true ((fun s => (RunPIController true s (5 : ℚ)).1)^[3 + 1]
        (⟨2, 1, 1, -1, 10, 0, 0, 0, 0⟩ : PIDController ℚ)) 5).2 = 1) ∧
    (((fun s => (RunPIController true s (-5 : ℚ)).1)^[3 + 1]
        (⟨2, 1, 1, -1, 10, 0, 0, 0, 0⟩ : PIDController ℚ)).ui_prev = -1 / 2 - -5 ∧
      (RunPIController true ((fun s => (RunPIController true s (-5 : ℚ)).1)^[3 + 1]
        (⟨2, 1, 1, -1, 10, 0, 0, 0, 0⟩ : PIDController ℚ)) (-5)).2 = -1) :=
  ⟨(pi_saturation_persists (⟨2, 1, 1, -1, 10, 0, 0, 0, 0⟩ : PIDController ℚ) 5
      (by norm_num) (by norm_num)).1 (by norm_num) (by norm_num) 3,
    (pi_saturation_persists (⟨2, 1, 1, -1, 10, 0, 0, 0, 0⟩ : PIDController ℚ) (-5)
      (by norm_num) (by norm_num)).2 (by norm_num) (by norm_num) (by norm_num) 3⟩

/-- C7 (evaluation at the failing input): after
ConfigMPPTracker(ref_step = 1/10, ref_init = 1, limup = 1, limlow = 0, iir_lpf = 1/2)
and one RunMPPTracking call with measurement 0 and power 0 the reference is
11/10, above limup = 1; the next call with measurement 0 and power 0 returns
12/10, one step further above limup, and not 11/10 - 1/10. -/
theorem mppt_above_limup_moves_away :
    (RunMPPTracking (ConfigMPPTracker (1 / 10 : ℚ) 1 1 0 (1 / 2)) 0 0).1
      = { power_prev := 0, meas_prev := 0, reference_step := 1 / 10, reference := 11 / 10, limup := 1, limlow := 0, iir_lpf := 1 / 2 } ∧
    (RunMPPTracking (RunMPPTracking (ConfigMPPTracker (1 / 10 : ℚ) 1 1 0 (1 / 2)) 0 0).1 0 0).2
      = 12 / 10 ∧
    (RunMPPTracking (RunMPPTracking (ConfigMPPTracker (1 / 10 : ℚ) 1 1 0 (1 / 2)) 0 0).1 0 0).2
      ≠ 11 / 10 - 1 / 10 := by
  refine ⟨?_, ?_, ?_⟩ <;> norm_num [RunMPPTracking, ConfigMPPTracker]

/-- C11 (as stated, refuted): on the state ConfigPIDController(kp = 2, ki = 1,
td = 0, limup = 100, limlow = -100, tsample = 1/10000, N = 10), which has b = 0
and ud_prev = 0, and error 1, RunPIController returns 3 and stores ui_prev = 1/2
while RunPIDController returns 4 and stores ui_prev = 1. -/
theorem pi_differs_from_pid_without_derivative :
    ¬ (∀ (me : PIDController ℚ) (error : ℚ), me.b = 0 → me.ud_prev = 0 →
        (RunPIController true me error).2 = (RunPIDController true me error).2 ∧
        (RunPIController true me error).1.ui_prev
          = (RunPIDController true me error).1.ui_prev) := by
  intro h
  have h1 := (h (ConfigPIDController 2 1 0 100 (-100) (1 / 10000) 10) 1
    (by norm_num [ConfigPIDController]) (by norm_num [ConfigPIDController])).1
  norm_num [RunPIController, RunPIDController, ConfigPIDController] at h1

/-- C11 (amended): for every PIDController state with b = 0, every error and the
outputs enabled, RunPIController (whose integral update is
ui = ui_prev + (ki / kp) * error) returns the same output and stores the same
ui_prev as RunPIDController does on the state with ki replaced by ki / kp; on
the same state the two agree whenever ki / kp = ki. -/
theorem pi_is_pid_with_scaled_ki (me : PIDController K) (error : K) (hb : me.b = 0) :
    ((RunPIController true me error).2
        = (RunPIDController true { me with ki := me.ki / me.kp } error).2 ∧
      (RunPIController true me error).1.ui_prev
        = (RunPIDController true { me with ki := me.ki / me.kp } error).1.ui_prev) ∧
    (me.ki / me.kp = me.ki →
      (RunPIController true me error).2 = (RunPIDController true me error).2 ∧
      (RunPIController true me error).1.ui_prev
        = (RunPIDController true me error).1.ui_prev) := by
  have key : ∀ s : PIDController K, s.b = 0 → s.kp = me.kp → s.limup = me.limup →
      s.limlow = me.limlow → s.ui_prev = me.ui_prev → s.ki = me.ki / me.kp →
      (RunPIController true me error).2 = (RunPIDController true s error).2 ∧
      (RunPIController true me error).1.ui_prev
        = (RunPIDController true s error).1.ui_prev := by
    intro s hsb hkp hup hlow hui hki
    simp only [RunPIController, RunPIDController, hsb, hkp, hup, hlow, hui, hki, zero_mul,
      add_zero, sub_zero]
    split_ifs <;> simp
  refine ⟨key _ hb rfl rfl rfl rfl rfl, fun hk => key me hb rfl rfl rfl rfl hk.symm⟩

/-- Witness for C11 (amended): kp = 1, ki = 3, limits [-100, 100], b = 0, zero
history, error 2: ki / kp = ki, and both routines return 8. -/
theorem pi_is_pid_with_scaled_ki_witness :
    (RunPIController true (⟨1, 3, 100, -100, 10, 0, 0, 0, 0⟩ : PIDController ℚ) 2).2
      = (RunPIDController true (⟨1, 3, 100, -100, 10, 0, 0, 0, 0⟩ : PIDController ℚ) 2).2 :=
  ((pi_is_pid_with_scaled_ki (⟨1, 3, 100, -100, 10, 0, 0, 0, 0⟩ : PIDController ℚ) 2 rfl).2
    (by norm_num)).1

/-- C12 (as stated, refuted): with kp = 2, ki = 1, limits [-100, 100], zero
history and error 1, kp * ui = 2 lies within the limits, but RunIController
returns ui = 1. -/
theorem i_controller_output_not_scaled_by_kp :
    ¬ (∀ (me : PIDController ℚ) (error : ℚ),
        (RunIController true me error).2
          = (if me.kp * (me.ui_prev + me.ki * error) > me.limup then me.limup
              else if me.kp * (me.ui_prev + me.ki * error) < me.limlow then me.limlow
              else me.kp * (me.ui_prev + me.ki * error))) := by
  intro h
  have h1 := h (⟨2, 1, 100, -100, 10, 0, 0, 0, 0⟩ : PIDController ℚ) 1
  norm_num [RunIController] at h1

/-- C12 (amended): for every PIDController state and error with the outputs
enabled, RunIController returns ui = ui_prev + ki * error saturated to
[limlow, limup] (kp is not used) and stores the returned value as ui_prev, which
on saturation is the active limit itself; when kp = 1 this is kp * ui saturated
with kp * ui_prev' equal to the returned value. -/
theorem i_controller_saturated_integral (me : PIDController K) (error : K) :
    ((RunIController true me error).2
        = (if me.ui_prev + me.ki * error > me.limup then me.limup
            else if me.ui_prev + me.ki * error < me.limlow then me.limlow
            else me.ui_prev + me.ki * error) ∧
      (RunIController true me error).1.ui_prev = (RunIController true me error).2) ∧
    (me.kp = 1 →
      (RunIController true me error).2
        = (if me.kp * (me.ui_prev + me.ki * error) > me.limup then me.limup
            else if me.kp * (me.ui_prev + me.ki * error) < me.limlow then me.limlow
            else me.kp * (me.ui_prev + me.ki * error)) ∧
      me.kp * (RunIController true me error).1.ui_prev = (RunIController true me error).2) := by
  have h1 : (RunIController true me error).2
        = (if me.ui_prev + me.ki * error > me.limup then me.limup
            else if me.ui_prev + me.ki * error < me.limlow then me.limlow
            else me.ui_prev + me.ki * error) ∧
      (RunIController true me error).1.ui_prev = (RunIController true me error).2 := by
    simp only [RunIController, Bool.not_true, Bool.false_eq_true, if_false]
    split_ifs <;> simp
  refine ⟨h1, fun hk => ?_⟩
  rw [hk, one_mul, one_mul]
  exact h1

/-- Witness for C12 (amended): kp = 1, ki = 1, limits [-1, 1], zero history and
error 5: the call returns limup = 1. -/
theorem i_controller_saturated_integral_witness :
    (RunIController true (⟨1, 1, 1, -1, 10, 0, 0, 0, 0⟩ : PIDController ℚ) 5).2
      = (if (1 : ℚ) * (0 + 1 * 5) > 1 then 1
          else if (1 : ℚ) * (0 + 1 * 5) < -1 then -1 else 1 * (0 + 1 * 5)) :=
  ((i_controller_saturated_integral (⟨1, 1, 1, -1, 10, 0, 0, 0, 0⟩ : PIDController ℚ) 5).2
    rfl).1

/-- C13: for every PRController state with b0 ≠ 0 and every error, with the
outputs enabled, RunPRController returns kp * error + ui (unclamped) where
ui = (a1 * e_prev - a2 * e_prev2 + b1 * ui_prev - b2 * ui_prev2) / b0, stores
ui_prev2' = ui_prev, ui_prev' = ui, e_prev2' = e_prev, e_prev' = error, and
leaves kp and the five coefficients unchanged. -/
theorem pr_step_biquad (me : PRController K) (error : K) (_hb0 : me.b0 ≠ 0) :
    (RunPRController true me error).2
      = me.kp * error
        + (me.a1 * me.e_prev - me.a2 * me.e_prev2 + me.b1 * me.ui_prev - me.b2 * me.ui_prev2)
          / me.b0 ∧
    (RunPRController true me error).1.ui_prev2 = me.ui_prev ∧
    (RunPRController true me error).1.ui_prev
      = (me.a1 * me.e_prev - me.a2 * me.e_prev2 + me.b1 * me.ui_prev - me.b2 * me.ui_prev2)
          / me.b0 ∧
    (RunPRController true me error).1.e_prev2 = me.e_prev ∧
    (RunPRController true me error).1.e_prev = error ∧
    (RunPRController true me error).1.kp = me.kp ∧
    (RunPRController true me error).1.a1 = me.a1 ∧
    (RunPRController true me error).1.a2 = me.a2 ∧
    (RunPRController true me error).1.b0 = me.b0 ∧
    (RunPRController true me error).1.b1 = me.b1 ∧
    (RunPRController true me error).1.b2 = me.b2 := by
  simp [RunPRController]

/-- Witness for C13: kp = 2, a1 = a2 = 1, b0 = 4, b1 = 2, b2 = 1, history
ui_prev = 1, ui_prev2 = 2, e_prev = 3, e_prev2 = 1, error 5: the call returns
2 * 5 + (1 * 3 - 1 * 1 + 2 * 1 - 1 * 2) / 4. -/
theorem pr_step_biquad_witness :
    (RunPRController true (⟨2, 1, 1, 4, 2, 1, 1, 2, 3, 1⟩ : PRController ℚ) 5).2
      = 2 * 5 + (1 * 3 - 1 * 1 + 2 * 1 - 1 * 2) / 4 :=
  (pr_step_biquad (⟨2, 1, 1, 4, 2, 1, 1, 2, 3, 1⟩ : PRController ℚ) 5 (by norm_num)).1

/-- C14 (evaluation at the failing input): ConfigPRController stores
a1 = a2 = 2 * ki * kt * wdamp, b0 = kt^2 + 2 * kt * wdamp + wres^2,
b1 = 2 * kt^2 - 2 * wres^2 and zero history, but stores b2 = b0; for
ConfigPRController(kp = 1, ki = 1, wres = 1, wdamp = 1, tsample = 2), where
kt = 1, it stores b2 = 4 and not kt^2 - 2 * kt * wdamp + wres^2 = 0. -/
theorem config_pr_b2_equals_b0 :
    (∀ kp ki wres wdamp tsample : ℚ,
      (ConfigPRController kp ki wres wdamp tsample).b2
        = (ConfigPRController kp ki wres wdamp tsample).b0) ∧
    (ConfigPRController (1 : ℚ) 1 1 1 2).b2 = 4 ∧
    (ConfigPRController (1 : ℚ) 1 1 1 2).b2
      ≠ (2 / 2) * (2 / 2) - 2 * (2 / 2) * 1 + 1 * 1 := by
  refine ⟨fun _ _ _ _ _ => rfl, ?_, ?_⟩ <;> norm_num [ConfigPRController]

/-! ## Theorems: phase-locked loops -/

/-- The single wrap of PLLs.cpp maps an angle of [-PI - TWOPI, PI + TWOPI] into
[-PI, PI], and into (-PI, PI] unless the angle is exactly -PI or -PI - TWOPI. -/
lemma wrap_once_bounds (t : K) (hlo : -PI - TWOPI ≤ t) (hhi : t ≤ PI + TWOPI) :
    -PI ≤ (if t > PI then t - TWOPI else if t < -PI then t + TWOPI else t) ∧
    (if t > PI then t - TWOPI else if t < -PI then t + TWOPI else t) ≤ PI ∧
    (-PI - TWOPI < t → t ≠ -PI →
      -PI < (if t > PI then t - TWOPI else if t < -PI then t + TWOPI else t)) := by
  simp only [PI, TWOPI] at hlo hhi ⊢
  split_ifs with h1 h2
  · refine ⟨by linarith, by linarith, fun _ _ => by linarith⟩
  · refine ⟨by linarith, by linarith, fun _ _ => by linarith⟩
  · have h3 := not_lt.mp h1
    have h4 := not_lt.mp h2
    exact ⟨h4, h3, fun _ hne => lt_of_le_of_ne h4 (Ne.symm hne)⟩

/-- C2 (as stated, refuted): the state produced by ConfigDQPLL with kp = 1, ki = 0,
omega0 = 100 and tsample = 1 has theta = 0 in (-PI, PI], yet one RunDQPLL call
with a zero input stores and returns theta = 100 - TWOPI, which is above PI. -/
theorem pll_theta_wrap_fails :
    ¬ (∀ (me : DQPLLParameters ℚ) (v : SpaceVector ℚ), -PI < me.theta → me.theta ≤ PI →
        (-PI < (RunDQPLL me v).1.theta ∧ (RunDQPLL me v).1.theta ≤ PI) ∧
        (-PI < (RunDQPLL me v).2 ∧ (RunDQPLL me v).2 ≤ PI)) := by
  intro h
  have h1 := (h (ConfigDQPLL 1 0 100 1) ⟨0, 0, 0⟩ (by norm_num [ConfigDQPLL, PI])
    (by norm_num [ConfigDQPLL, PI])).2.2
  norm_num [RunDQPLL, ConfigDQPLL, ConfigPIDController, PI, TWOPI] at h1

/-- C2 (amended): for every DQPLL, SOGIPLL1 and DSOGIPLL3 state whose theta lies in
[-PI, PI] (the code's PI = 3.141592654) and for every input such that the step
omega' * ts of this call has absolute value at most TWOPI (= 6.283185307), the
theta stored after one Run call is the returned one and lies in [-PI, PI]; when
theta was above -PI, it is above -PI again unless theta + omega' * ts is exactly
-PI. -/
theorem pll_theta_wrap_amended (csin ccos : K → K) :
    (∀ (me : DQPLLParameters K) (v : SpaceVector K), -PI ≤ me.theta → me.theta ≤ PI →
      |(RunDQPLL me v).1.omega * me.ts| ≤ TWOPI →
      (RunDQPLL me v).1.theta = (RunDQPLL me v).2 ∧
      -PI ≤ (RunDQPLL me v).2 ∧ (RunDQPLL me v).2 ≤ PI ∧
      (-PI < me.theta → me.theta + (RunDQPLL me v).1.omega * me.ts ≠ -PI →
        -PI < (RunDQPLL me v).2)) ∧
    (∀ (me : SOGIPLL1Parameters K) (vin : K), -PI ≤ me.theta → me.theta ≤ PI →
      |(RunSOGIPLL1 csin ccos me vin).1.omega * me.ts| ≤ TWOPI →
      (RunSOGIPLL1 csin ccos me vin).1.theta = (RunSOGIPLL1 csin ccos me vin).2.2 ∧
      -PI ≤ (RunSOGIPLL1 csin ccos me vin).2.2 ∧ (RunSOGIPLL1 csin ccos me vin).2.2 ≤ PI ∧
      (-PI < me.theta → me.theta + (RunSOGIPLL1 csin ccos me vin).1.omega * me.ts ≠ -PI →
        -PI < (RunSOGIPLL1 csin ccos me vin).2.2)) ∧
    (∀ (me : DSOGIPLL3Parameters K) (v : SpaceVector K), -PI ≤ me.theta → me.theta ≤ PI →
      |(RunDSOGIPLL3 csin ccos me v).1.omega * me.ts| ≤ TWOPI →
      (RunDSOGIPLL3 csin ccos me v).1.theta = (RunDSOGIPLL3 csin ccos me v).2 ∧
      -PI ≤ (RunDSOGIPLL3 csin ccos me v).2 ∧ (RunDSOGIPLL3 csin ccos me v).2 ≤ PI ∧
      (-PI < me.theta → me.theta + (RunDSOGIPLL3 csin ccos me v).1.omega * me.ts ≠ -PI →
        -PI < (RunDSOGIPLL3 csin ccos me v).2)) := by
  refine ⟨?_, ?_, ?_⟩
  · intro me v hlo hhi hstep
    have hs := abs_le.mp hstep
    have hw := wrap_once_bounds (me.theta + (RunDQPLL me v).1.omega * me.ts)
      (by linarith [hs.1]) (by linarith [hs.2])
    exact ⟨rfl, hw.1, hw.2.1, fun hth hne => hw.2.2 (by linarith [hs.1]) hne⟩
  · intro me vin hlo hhi hstep
    have hs := abs_le.mp hstep
    have hw := wrap_once_bounds (me.theta + (RunSOGIPLL1 csin ccos me vin).1.omega * me.ts)
      (by linarith [hs.1]) (by linarith [hs.2])
    exact ⟨rfl, hw.1, hw.2.1, fun hth hne => hw.2.2 (by linarith [hs.1]) hne⟩
  · intro me v hlo hhi hstep
    have hs := abs_le.mp hstep
    have hw := wrap_once_bounds (me.theta + (RunDSOGIPLL3 csin ccos me v).1.omega * me.ts)
      (by linarith [hs.1]) (by linarith [hs.2])
    exact ⟨rfl, hw.1, hw.2.1, fun hth hne => hw.2.2 (by linarith [hs.1]) hne⟩

/-- Witness for C2 (amended), over the reals with the real sine and cosine: the
states produced by ConfigDQPLL, ConfigSOGIPLL1 and ConfigDSOGIPLL3 with kp = 1,
ki = 1, SOGI gain 1, omega0 = 314 and tsample = 1/10000. -/
theorem pll_theta_wrap_amended_witness :
    (-PI ≤ (RunDQPLL (ConfigDQPLL (1 : ℝ) 1 314 (1 / 10000)) ⟨1, 1 / 2, 0⟩).2 ∧
      (RunDQPLL (ConfigDQPLL (1 : ℝ) 1 314 (1 / 10000)) ⟨1, 1 / 2, 0⟩).2 ≤ PI) ∧
    (-PI ≤ (RunSOGIPLL1 Real.sin Real.cos (ConfigSOGIPLL1 1 1 1 314 (1 / 10000)) 1).2.2 ∧
      (RunSOGIPLL1 Real.sin Real.cos (ConfigSOGIPLL1 1 1 1 314 (1 / 10000)) 1).2.2 ≤ PI) ∧
    (-PI ≤ (RunDSOGIPLL3 Real.sin Real.cos (ConfigDSOGIPLL3 1 1 1 314 (1 / 10000))
        ⟨1, 1 / 2, 0⟩).2 ∧
      (RunDSOGIPLL3 Real.sin Real.cos (ConfigDSOGIPLL3 1 1 1 314 (1 / 10000))
        ⟨1, 1 / 2, 0⟩).2 ≤ PI) := by
  have h := pll_theta_wrap_amended Real.sin Real.cos
  have h1 := h.1 (ConfigDQPLL (1 : ℝ) 1 314 (1 / 10000)) ⟨1, 1 / 2, 0⟩
    (by norm_num [ConfigDQPLL, PI]) (by norm_num [ConfigDQPLL, PI])
    (by norm_num [RunDQPLL, ConfigDQPLL, ConfigPIDController, TWOPI, abs_le])
  have h2 := h.2.1 (ConfigSOGIPLL1 1 1 1 314 (1 / 10000)) 1
    (by norm_num [ConfigSOGIPLL1, PI]) (by norm_num [ConfigSOGIPLL1, PI])
    (by norm_num [RunSOGIPLL1, RunSOGI3, ConfigSOGIPLL1, ConfigSOGI3, ConfigPIDController,
      TWOPI, abs_le])
  have h3 := h.2.2 (ConfigDSOGIPLL3 1 1 1 314 (1 / 10000)) ⟨1, 1 / 2, 0⟩
    (by norm_num [ConfigDSOGIPLL3, PI]) (by norm_num [ConfigDSOGIPLL3, PI])
    (by norm_num [RunDSOGIPLL3, RunSOGI3, ConfigDSOGIPLL3, ConfigSOGI3, ConfigPIDController,
      TWOPI, abs_le])
  exact ⟨⟨h1.2.1, h1.2.2.1⟩, ⟨h2.2.1, h2.2.2.1⟩, ⟨h3.2.1, h3.2.2.1⟩⟩

/-- C15: one RunSOGI3 call yields, for each block, z3' = z2, z2' = z1,
z1' = z1 + constant * omega * f and output' = 23 * z1' - 16 * z2' + 5 * z3',
with f = -output_2 + gain * (m - output_1) for the first block and f = output_1
for the second, output_1 and output_2 being the outputs stored before the
call; it returns (output_1', output_2', 0) and leaves omega, gain and constant
unchanged. -/
theorem sogi3_step (me : SOGI3Parameters K) (m : K) :
    ((RunSOGI3 me m).1.states0.z3 = me.states0.z2 ∧
      (RunSOGI3 me m).1.states0.z2 = me.states0.z1 ∧
      (RunSOGI3 me m).1.states0.z1 = me.states0.z1 + me.constant * me.omega *
        (-me.states1.output + me.gain * (m - me.states0.output)) ∧
      (RunSOGI3 me m).1.states0.output = 23 * (RunSOGI3 me m).1.states0.z1
        - 16 * (RunSOGI3 me m).1.states0.z2 + 5 * (RunSOGI3 me m).1.states0.z3) ∧
    ((RunSOGI3 me m).1.states1.z3 = me.states1.z2 ∧
      (RunSOGI3 me m).1.states1.z2 = me.states1.z1 ∧
      (RunSOGI3 me m).1.states1.z1 = me.states1.z1 + me.constant * me.omega *
        me.states0.output ∧
      (RunSOGI3 me m).1.states1.output = 23 * (RunSOGI3 me m).1.states1.z1
        - 16 * (RunSOGI3 me m).1.states1.z2 + 5 * (RunSOGI3 me m).1.states1.z3) ∧
    (RunSOGI3 me m).2
      = ⟨(RunSOGI3 me m).1.states0.output, (RunSOGI3 me m).1.states1.output, 0⟩ ∧
    (RunSOGI3 me m).1.omega = me.omega ∧
    (RunSOGI3 me m).1.gain = me.gain ∧
    (RunSOGI3 me m).1.constant = me.constant :=
  ⟨⟨rfl, rfl, rfl, rfl⟩, ⟨rfl, rfl, rfl, rfl⟩, rfl, rfl, rfl, rfl⟩

/-- C16 (as stated, refuted): after ConfigDSOGIPLL3(kp = 1, ki = 1, gain = 1,
omega0 = 314, tsample = 1/10000) one RunDSOGIPLL3 call with input (0, 1, 0) sets
the PLL's omega to 314 + 2 * 23 * 314 / 120000 while the omega of SOGIa is still
314. -/
theorem sogi_omega_not_driven_by_pll :
    ¬ ((∀ (me : SOGIPLL1Parameters ℝ) (vin : ℝ),
          (RunSOGIPLL1 Real.sin Real.cos me vin).1.SOGI.omega
            = (RunSOGIPLL1 Real.sin Real.cos me vin).1.omega) ∧
        (∀ (me : DSOGIPLL3Parameters ℝ) (v : SpaceVector ℝ),
          (RunDSOGIPLL3 Real.sin Real.cos me v).1.SOGIa.omega
            = (RunDSOGIPLL3 Real.sin Real.cos me v).1.omega ∧
          (RunDSOGIPLL3 Real.sin Real.cos me v).1.SOGIb.omega
            = (RunDSOGIPLL3 Real.sin Real.cos me v).1.omega)) := by
  intro h
  have h1 := (h.2 (ConfigDSOGIPLL3 1 1 1 314 (1 / 10000)) ⟨0, 1, 0⟩).1
  norm_num [RunDSOGIPLL3, RunSOGI3, ConfigDSOGIPLL3, ConfigSOGI3, ConfigPIDController]
    at h1

/-- The omega of the embedded SOGI is not written by RunSOGIPLL1. -/
lemma RunSOGIPLL1_SOGI_omega (csin ccos : K → K) (me : SOGIPLL1Parameters K) (vin : K) :
    (RunSOGIPLL1 csin ccos me vin).1.SOGI.omega = me.SOGI.omega := rfl

/-- The omega of neither embedded SOGI is written by RunDSOGIPLL3. -/
lemma RunDSOGIPLL3_SOGI_omega (csin ccos : K → K) (me : DSOGIPLL3Parameters K)
    (v : SpaceVector K) :
    (RunDSOGIPLL3 csin ccos me v).1.SOGIa.omega = me.SOGIa.omega ∧
    (RunDSOGIPLL3 csin ccos me v).1.SOGIb.omega = me.SOGIb.omega := ⟨rfl, rfl⟩

/-- C16 (amended): RunSOGIPLL1 leaves the embedded SOGI's omega at the value it
had before the call, and RunDSOGIPLL3 does so for SOGIa and SOGIb, whatever
omega the PLL computes; after ConfigSOGIPLL1 or ConfigDSOGIPLL3 and any finite
sequence of Run calls these SOGI omegas are still omega0. -/
theorem sogi_omega_unchanged_by_pll (csin ccos : K → K) :
    (∀ (me : SOGIPLL1Parameters K) (vin : K),
      (RunSOGIPLL1 csin ccos me vin).1.SOGI.omega = me.SOGI.omega) ∧
    (∀ (me : DSOGIPLL3Parameters K) (v : SpaceVector K),
      (RunDSOGIPLL3 csin ccos me v).1.SOGIa.omega = me.SOGIa.omega ∧
      (RunDSOGIPLL3 csin ccos me v).1.SOGIb.omega = me.SOGIb.omega) ∧
    (∀ (kp ki gain omega0 tsample : K) (vins : List K),
      (vins.foldl (fun s vin => (RunSOGIPLL1 csin ccos s vin).1)
        (ConfigSOGIPLL1 kp ki gain omega0 tsample)).SOGI.omega = omega0) ∧
    (∀ (kp ki gain omega0 tsample : K) (vs : List (SpaceVector K)),
      (vs.foldl (fun s v => (RunDSOGIPLL3 csin ccos s v).1)
        (ConfigDSOGIPLL3 kp ki gain omega0 tsample)).SOGIa.omega = omega0 ∧
      (vs.foldl (fun s v => (RunDSOGIPLL3 csin ccos s v).1)
        (ConfigDSOGIPLL3 kp ki gain omega0 tsample)).SOGIb.omega = omega0) := by
  refine ⟨fun _ _ => rfl, fun _ _ => ⟨rfl, rfl⟩, ?_, ?_⟩
  · intro kp ki gain omega0 tsample vins
    have key : ∀ (l : List K) (s : SOGIPLL1Parameters K),
        (l.foldl (fun s vin => (RunSOGIPLL1 csin ccos s vin).1) s).SOGI.omega
          = s.SOGI.omega := by
      intro l
      induction l with
      | nil => intro s; rfl
      | cons x xs ih =>
        intro s
        rw [List.foldl_cons, ih, RunSOGIPLL1_SOGI_omega]
    rw [key]
    rfl
  · intro kp ki gain omega0 tsample vs
    have key : ∀ (l : List (SpaceVector K)) (s : DSOGIPLL3Parameters K),
        (l.foldl (fun s v => (RunDSOGIPLL3 csin ccos s v).1) s).SOGIa.omega
            = s.SOGIa.omega ∧
        (l.foldl (fun s v => (RunDSOGIPLL3 csin ccos s v).1) s).SOGIb.omega
            = s.SOGIb.omega := by
      intro l
      induction l with
      | nil => intro s; exact ⟨rfl, rfl⟩
      | cons x xs ih =>
        intro s
        rw [List.foldl_cons, (ih _).1, (ih _).2]
        exact RunDSOGIPLL3_SOGI_omega csin ccos s x
    rw [(key _ _).1, (key _ _).2]
    exact ⟨rfl, rfl⟩

/-- C17: RunDQPLL sets omega' = omega0 + u, where u is
kp * (q + ui_prev + (ki / kp) * q) with q = v.imaginary, replaced by limup when
above limup and else by limlow when below limlow; sets theta' to
theta + omega' * ts wrapped once (minus TWOPI if above PI, plus TWOPI if below
-PI) and returns theta'.  The whole result (new state and returned angle) is the
same for any previous value of omega and any v.real and v.offset. -/
theorem dqpll_step (me : DQPLLParameters K) (v : SpaceVector K) :
    ((RunDQPLL me v).1.omega = me.omega0 +
        (if me.PI_reg.kp * (v.imaginary + me.PI_reg.ui_prev
              + me.PI_reg.ki / me.PI_reg.kp * v.imaginary) > me.PI_reg.limup
          then me.PI_reg.limup
          else if me.PI_reg.kp * (v.imaginary + me.PI_reg.ui_prev
              + me.PI_reg.ki / me.PI_reg.kp * v.imaginary) < me.PI_reg.limlow
          then me.PI_reg.limlow
          else me.PI_reg.kp * (v.imaginary + me.PI_reg.ui_prev
              + me.PI_reg.ki / me.PI_reg.kp * v.imaginary))) ∧
    ((RunDQPLL me v).1.theta =
        (if me.theta + (RunDQPLL me v).1.omega * me.ts > PI
          then me.theta + (RunDQPLL me v).1.omega * me.ts - TWOPI
          else if me.theta + (RunDQPLL me v).1.omega * me.ts < -PI
          then me.theta + (RunDQPLL me v).1.omega * me.ts + TWOPI
          else me.theta + (RunDQPLL me v).1.omega * me.ts)) ∧
    (RunDQPLL me v).2 = (RunDQPLL me v).1.theta ∧
    (∀ (omega re off : K),
      RunDQPLL { me with omega := omega } ⟨re, v.imaginary, off⟩ = RunDQPLL me v) := by
  have hassoc : me.PI_reg.kp * (v.imaginary + me.PI_reg.ui_prev
        + me.PI_reg.ki / me.PI_reg.kp * v.imaginary)
      = me.PI_reg.kp * (v.imaginary + (me.PI_reg.ui_prev
        + me.PI_reg.ki / me.PI_reg.kp * v.imaginary)) := by ring
  refine ⟨?_, rfl, rfl, fun _ _ _ => rfl⟩
  rw [hassoc]
  simp only [RunDQPLL]
  split_ifs <;> rfl

/-- C19: RunSOGIPLL1 advances the embedded SOGI by exactly one RunSOGI3 call on
vin and writes to UABG the vector that call returns; the error q fed to the
controller is -sin(theta) * UABG.real + cos(theta) * UABG.imaginary at the theta
held before the call, which is the imaginary component of ABG2DQ0(UABG, theta):
omega' = omega0 + (kp * (q + ui) saturated) with ui = ui_prev + (ki / kp) * q,
and the controller state, omega, theta and returned angle are those RunDQPLL
produces for the input ABG2DQ0(UABG, theta); the call returns the new wrapped
theta it stores. -/
theorem sogipll1_step (csin ccos : K → K) (me : SOGIPLL1Parameters K) (vin : K) :
    (RunSOGIPLL1 csin ccos me vin).1.SOGI = (RunSOGI3 me.SOGI vin).1 ∧
    (RunSOGIPLL1 csin ccos me vin).2.1 = (RunSOGI3 me.SOGI vin).2 ∧
    (-csin me.theta * (RunSOGI3 me.SOGI vin).2.real
        + ccos me.theta * (RunSOGI3 me.SOGI vin).2.imaginary
      = (ABG2DQ0 csin ccos (RunSOGIPLL1 csin ccos me vin).2.1 me.theta).imaginary) ∧
    ((RunSOGIPLL1 csin ccos me vin).1.omega = me.omega0 +
      (if me.PI_reg.kp * ((-csin me.theta * (RunSOGI3 me.SOGI vin).2.real
              + ccos me.theta * (RunSOGI3 me.SOGI vin).2.imaginary)
            + (me.PI_reg.ui_prev + me.PI_reg.ki / me.PI_reg.kp *
              (-csin me.theta * (RunSOGI3 me.SOGI vin).2.real
                + ccos me.theta * (RunSOGI3 me.SOGI vin).2.imaginary))) > me.PI_reg.limup
        then me.PI_reg.limup
        else if me.PI_reg.kp * ((-csin me.theta * (RunSOGI3 me.SOGI vin).2.real
              + ccos me.theta * (RunSOGI3 me.SOGI vin).2.imaginary)
            + (me.PI_reg.ui_prev + me.PI_reg.ki / me.PI_reg.kp *
              (-csin me.theta * (RunSOGI3 me.SOGI vin).2.real
                + ccos me.theta * (RunSOGI3 me.SOGI vin).2.imaginary))) < me.PI_reg.limlow
        then me.PI_reg.limlow
        else me.PI_reg.kp * ((-csin me.theta * (RunSOGI3 me.SOGI vin).2.real
              + ccos me.theta * (RunSOGI3 me.SOGI vin).2.imaginary)
            + (me.PI_reg.ui_prev + me.PI_reg.ki / me.PI_reg.kp *
              (-csin me.theta * (RunSOGI3 me.SOGI vin).2.real
                + ccos me.theta * (RunSOGI3 me.SOGI vin).2.imaginary))))) ∧
    ((RunSOGIPLL1 csin ccos me vin).1.PI_reg
        = (RunDQPLL ⟨me.theta, me.omega, me.omega0, me.ts, me.PI_reg⟩
            (ABG2DQ0 csin ccos (RunSOGI3 me.SOGI vin).2 me.theta)).1.PI_reg ∧
      (RunSOGIPLL1 csin ccos me vin).1.omega
        = (RunDQPLL ⟨me.theta, me.omega, me.omega0, me.ts, me.PI_reg⟩
            (ABG2DQ0 csin ccos (RunSOGI3 me.SOGI vin).2 me.theta)).1.omega ∧
      (RunSOGIPLL1 csin ccos me vin).1.theta
        = (RunDQPLL ⟨me.theta, me.omega, me.omega0, me.ts, me.PI_reg⟩
            (ABG2DQ0 csin ccos (RunSOGI3 me.SOGI vin).2 me.theta)).1.theta ∧
      (RunSOGIPLL1 csin ccos me vin).2.2
        = (RunDQPLL ⟨me.theta, me.omega, me.omega0, me.ts, me.PI_reg⟩
            (ABG2DQ0 csin ccos (RunSOGI3 me.SOGI vin).2 me.theta)).2) ∧
    (RunSOGIPLL1 csin ccos me vin).2.2 = (RunSOGIPLL1 csin ccos me vin).1.theta := by
  refine ⟨rfl, rfl, rfl, ?_, ⟨rfl, rfl, rfl, rfl⟩, rfl⟩
  simp only [RunSOGIPLL1]
  split_ifs <;> rfl

/-- C20: RunDSOGIPLL3 advances SOGIa by one RunSOGI3 call on v.real and SOGIb by
one RunSOGI3 call on v.imaginary, each from its own state only; with a and b
the vectors these calls return, the error fed to the controller is
q = -sin(theta) * (a.real - b.imaginary) + cos(theta) * (a.imaginary + b.real)
at the theta held before the call: the controller state, omega, theta and
returned angle are those RunDQPLL produces for an input whose imaginary
component is q; v.offset has no effect on any result. -/
theorem dsogipll3_step (csin ccos : K → K) (me : DSOGIPLL3Parameters K) (v : SpaceVector K) :
    (RunDSOGIPLL3 csin ccos me v).1.SOGIa = (RunSOGI3 me.SOGIa v.real).1 ∧
    (RunDSOGIPLL3 csin ccos me v).1.SOGIb = (RunSOGI3 me.SOGIb v.imaginary).1 ∧
    ((RunDSOGIPLL3 csin ccos me v).1.PI_reg
        = (RunDQPLL ⟨me.theta, me.omega, me.omega0, me.ts, me.PI_reg⟩
            ⟨0, -csin me.theta * ((RunSOGI3 me.SOGIa v.real).2.real
                - (RunSOGI3 me.SOGIb v.imaginary).2.imaginary)
              + ccos me.theta * ((RunSOGI3 me.SOGIa v.real).2.imaginary
                + (RunSOGI3 me.SOGIb v.imaginary).2.real), 0⟩).1.PI_reg ∧
      (RunDSOGIPLL3 csin ccos me v).1.omega
        = (RunDQPLL ⟨me.theta, me.omega, me.omega0, me.ts, me.PI_reg⟩
            ⟨0, -csin me.theta * ((RunSOGI3 me.SOGIa v.real).2.real
                - (RunSOGI3 me.SOGIb v.imaginary).2.imaginary)
              + ccos me.theta * ((RunSOGI3 me.SOGIa v.real).2.imaginary
                + (RunSOGI3 me.SOGIb v.imaginary).2.real), 0⟩).1.omega ∧
      (RunDSOGIPLL3 csin ccos me v).1.theta
        = (RunDQPLL ⟨me.theta, me.omega, me.omega0, me.ts, me.PI_reg⟩
            ⟨0, -csin me.theta * ((RunSOGI3 me.SOGIa v.real).2.real
                - (RunSOGI3 me.SOGIb v.imaginary).2.imaginary)
              + ccos me.theta * ((RunSOGI3 me.SOGIa v.real).2.imaginary
                + (RunSOGI3 me.SOGIb v.imaginary).2.real), 0⟩).1.theta ∧
      (RunDSOGIPLL3 csin ccos me v).2
        = (RunDQPLL ⟨me.theta, me.omega, me.omega0, me.ts, me.PI_reg⟩
            ⟨0, -csin me.theta * ((RunSOGI3 me.SOGIa v.real).2.real
                - (RunSOGI3 me.SOGIb v.imaginary).2.imaginary)
              + ccos me.theta * ((RunSOGI3 me.SOGIa v.real).2.imaginary
                + (RunSOGI3 me.SOGIb v.imaginary).2.real), 0⟩).2) ∧
    (∀ off : K, RunDSOGIPLL3 csin ccos me ⟨v.real, v.imaginary, off⟩
      = RunDSOGIPLL3 csin ccos me v) :=
  ⟨rfl, rfl, ⟨rfl, rfl, rfl, rfl⟩, fun _ => rfl⟩

/-! ## Theorems: sequence decomposition, rotations, tracker and estimator -/

/-- C21: with the real sine and cosine, if abc2ABG(physical) has
real = pd cos θ - pq sin θ + nd cos θ + nq sin θ and
imaginary = pd sin θ + pq cos θ - nd sin θ + nq cos θ, and the filtered states
are pos_lpf = (pd, pq) and neg_lpf = (nd, nq), then RunDSRF outputs
dqpos = (pd, pq) and dqneg = (nd, nq) in the real and imaginary parts and
leaves pos_lpf and neg_lpf unchanged, for every angle θ and filter
coefficient k. -/
theorem dsrf_steady_state_exact (θ pd pq nd nq : ℝ) (me : Sequences ℝ)
    (physical : TimeDomain ℝ)
    (hre : (abc2ABG physical).real
      = pd * Real.cos θ - pq * Real.sin θ + nd * Real.cos θ + nq * Real.sin θ)
    (him : (abc2ABG physical).imaginary
      = pd * Real.sin θ + pq * Real.cos θ - nd * Real.sin θ + nq * Real.cos θ)
    (hpr : me.pos_lpf.real = pd) (hpi : me.pos_lpf.imaginary = pq)
    (hnr : me.neg_lpf.real = nd) (hni : me.neg_lpf.imaginary = nq) :
    (RunDSRF Real.sin Real.cos me physical θ).dqpos.real = pd ∧
    (RunDSRF Real.sin Real.cos me physical θ).dqpos.imaginary = pq ∧
    (RunDSRF Real.sin Real.cos me physical θ).dqneg.real = nd ∧
    (RunDSRF Real.sin Real.cos me physical θ).dqneg.imaginary = nq ∧
    (RunDSRF Real.sin Real.cos me physical θ).pos_lpf = me.pos_lpf ∧
    (RunDSRF Real.sin Real.cos me physical θ).neg_lpf = me.neg_lpf := by
  have h1 := Real.sin_sq_add_cos_sq θ
  have hc := Real.cos_two_mul θ
  have hs := Real.sin_two_mul θ
  have e1 : (RunDSRF Real.sin Real.cos me physical θ).dqpos.real = pd := by
    simp only [RunDSRF, hre, him, hnr, hni, hc, hs]
    linear_combination (pd - nd) * h1
  have e2 : (RunDSRF Real.sin Real.cos me physical θ).dqpos.imaginary = pq := by
    simp only [RunDSRF, hre, him, hnr, hni, hc, hs]
    linear_combination (pq - nq) * h1
  have e3 : (RunDSRF Real.sin Real.cos me physical θ).dqneg.real = nd := by
    simp only [RunDSRF, hre, him, hpr, hpi, hc, hs]
    linear_combination (nd - pd) * h1
  have e4 : (RunDSRF Real.sin Real.cos me physical θ).dqneg.imaginary = nq := by
    simp only [RunDSRF, hre, him, hpr, hpi, hc, hs]
    linear_combination (nq - pq) * h1
  refine ⟨e1, e2, e3, e4, ?_, ?_⟩
  · have f1 : (RunDSRF Real.sin Real.cos me physical θ).pos_lpf.real
        = (1 - me.k) * me.pos_lpf.real
          + me.k * (RunDSRF Real.sin Real.cos me physical θ).dqpos.real := rfl
    have f2 : (RunDSRF Real.sin Real.cos me physical θ).pos_lpf.imaginary
        = (1 - me.k) * me.pos_lpf.imaginary
          + me.k * (RunDSRF Real.sin Real.cos me physical θ).dqpos.imaginary := rfl
    have f3 : (RunDSRF Real.sin Real.cos me physical θ).pos_lpf.offset
        = me.pos_lpf.offset := rfl
    rw [e1, hpr] at f1
    rw [e2, hpi] at f2
    cases hm : me.pos_lpf with
    | mk re im off =>
      rw [hm] at hpr hpi f3
      cases hr : (RunDSRF Real.sin Real.cos me physical θ).pos_lpf with
      | mk re2 im2 off2 =>
        rw [hr] at f1 f2 f3
        simp only at hpr hpi f1 f2 f3
        rw [f3, hpr, hpi, f1, f2]
        congr 1 <;> ring
  · have f1 : (RunDSRF Real.sin Real.cos me physical θ).neg_lpf.real
        = (1 - me.k) * me.neg_lpf.real
          + me.k * (RunDSRF Real.sin Real.cos me physical θ).dqneg.real := rfl
    have f2 : (RunDSRF Real.sin Real.cos me physical θ).neg_lpf.imaginary
        = (1 - me.k) * me.neg_lpf.imaginary
          + me.k * (RunDSRF Real.sin Real.cos me physical θ).dqneg.imaginary := rfl
    have f3 : (RunDSRF Real.sin Real.cos me physical θ).neg_lpf.offset
        = me.neg_lpf.offset := rfl
    rw [e3, hnr] at f1
    rw [e4, hni] at f2
    cases hm : me.neg_lpf with
    | mk re im off =>
      rw [hm] at hnr hni f3
      cases hr : (RunDSRF Real.sin Real.cos me physical θ).neg_lpf with
      | mk re2 im2 off2 =>
        rw [hr] at f1 f2 f3
        simp only at hnr hni f1 f2 f3
        rw [f3, hnr, hni, f1, f2]
        congr 1 <;> ring

/-- Witness for C21: θ = 0, physical = (1, -1/2, -1/2), whose abc2ABG image is
(1, 0, 0), sequence components pd = 1, pq = nd = nq = 0, filtered states
pos_lpf = (1, 0), neg_lpf = (0, 0) and k = 1/10: RunDSRF outputs dqpos.real = 1. -/
theorem dsrf_steady_state_exact_witness :
    (RunDSRF Real.sin Real.cos
      (⟨⟨0, 0, 0⟩, ⟨0, 0, 0⟩, ⟨1, 0, 0⟩, ⟨0, 0, 0⟩, 1 / 10⟩ : Sequences ℝ)
      ⟨1, -(1 / 2), -(1 / 2)⟩ 0).dqpos.real = 1 :=
  (dsrf_steady_state_exact 0 1 0 0 0
    (⟨⟨0, 0, 0⟩, ⟨0, 0, 0⟩, ⟨1, 0, 0⟩, ⟨0, 0, 0⟩, 1 / 10⟩ : Sequences ℝ)
    ⟨1, -(1 / 2), -(1 / 2)⟩
    (by norm_num [abc2ABG]) (by norm_num [abc2ABG]) rfl rfl rfl rfl).1

/-- C26: with the real sine and cosine, DQ02ABG at the angle θ is ABG2DQ0 at the
angle -θ in all three components, and both leave the offset component
unchanged. -/
theorem inverse_rotation_is_negated_angle (θ : ℝ) (v : SpaceVector ℝ) :
    DQ02ABG Real.sin Real.cos v θ = ABG2DQ0 Real.sin Real.cos v (-θ) ∧
    (DQ02ABG Real.sin Real.cos v θ).offset = v.offset ∧
    (ABG2DQ0 Real.sin Real.cos v θ).offset = v.offset := by
  refine ⟨?_, rfl, rfl⟩
  simp only [DQ02ABG, ABG2DQ0, Real.cos_neg, Real.sin_neg, neg_neg, SpaceVector.mk.injEq,
    and_true]
  ring

/-- C22: RunMPPTracking follows the perturb-and-observe table.  With p and m the
power and measurement floored at zero, p_lpf and m_lpf their low-pass filtered
values, dP = p_lpf - power_prev and dM = m_lpf - meas_prev: if dP ≥ 0 the new
reference is reference + step when dM ≥ 0 and reference - step otherwise; if
dP < 0 it is reference - step when reference > limup, else reference + step
when reference < limlow, else reference - step when dM ≥ 0 and
reference + step otherwise.  The call returns the new reference, stores it,
stores p_lpf and m_lpf as power_prev and meas_prev and leaves the step, the
limits and the filter coefficient unchanged. -/
theorem mppt_perturb_observe_table (me : MPPTracker K) (measurement power : K) :
    let p_lpf := me.iir_lpf * (if power < 0 then 0 else power)
      + (1 - me.iir_lpf) * me.power_prev
    let m_lpf := me.iir_lpf * (if measurement < 0 then 0 else measurement)
      + (1 - me.iir_lpf) * me.meas_prev
    let dP := p_lpf - me.power_prev
    let dM := m_lpf - me.meas_prev
    let r := RunMPPTracking me measurement power
    (0 ≤ dP → 0 ≤ dM → r.2 = me.reference + me.reference_step) ∧
    (0 ≤ dP → dM < 0 → r.2 = me.reference - me.reference_step) ∧
    (dP < 0 → me.reference > me.limup → r.2 = me.reference - me.reference_step) ∧
    (dP < 0 → ¬ me.reference > me.limup → me.reference < me.limlow →
      r.2 = me.reference + me.reference_step) ∧
    (dP < 0 → ¬ me.reference > me.limup → ¬ me.reference < me.limlow → 0 ≤ dM →
      r.2 = me.reference - me.reference_step) ∧
    (dP < 0 → ¬ me.reference > me.limup → ¬ me.reference < me.limlow → dM < 0 →
      r.2 = me.reference + me.reference_step) ∧
    r.1.reference = r.2 ∧ r.1.power_prev = p_lpf ∧ r.1.meas_prev = m_lpf ∧
    r.1.reference_step = me.reference_step ∧ r.1.limup = me.limup ∧
    r.1.limlow = me.limlow ∧ r.1.iir_lpf = me.iir_lpf := by
  dsimp only
  refine ⟨?_, ?_, ?_, ?_, ?_, ?_, rfl, rfl, rfl, rfl, rfl, rfl, rfl⟩
  · intro h1 h2
    simp only [RunMPPTracking, ge_iff_le]
    rw [if_pos h1, if_pos h2]
  · intro h1 h2
    simp only [RunMPPTracking, ge_iff_le]
    rw [if_pos h1, if_neg (not_le.mpr h2)]
  · intro h1 h2
    simp only [RunMPPTracking, ge_iff_le]
    rw [if_neg (not_le.mpr h1), if_pos h2]
  · intro h1 h2 h3
    simp only [RunMPPTracking, ge_iff_le]
    rw [if_neg (not_le.mpr h1), if_neg h2, if_pos h3]
  · intro h1 h2 h3 h4
    simp only [RunMPPTracking, ge_iff_le]
    rw [if_neg (not_le.mpr h1), if_neg h2, if_neg h3, if_pos h4]
  · intro h1 h2 h3 h4
    simp only [RunMPPTracking, ge_iff_le]
    rw [if_neg (not_le.mpr h1), if_neg h2, if_neg h3, if_neg (not_le.mpr h4)]

/-- Witness for C22, one input per row of the table, all with step 1/10, limits
[0, 10] and filter coefficient 1/2: rising power and measurement (reference 2
to 21/10); rising power, falling measurement (19/10); falling power with
reference 11 above limup (109/10); falling power with reference -1 below limlow
(-9/10); falling power, rising measurement (19/10); falling power, falling
measurement (21/10). -/
theorem mppt_perturb_observe_table_witness :
    (RunMPPTracking (⟨0, 0, 1 / 10, 2, 10, 0, 1 / 2⟩ : MPPTracker ℚ) 1 1).2 = 2 + 1 / 10 ∧
    (RunMPPTracking (⟨0, 4, 1 / 10, 2, 10, 0, 1 / 2⟩ : MPPTracker ℚ) 1 1).2 = 2 - 1 / 10 ∧
    (RunMPPTracking (⟨4, 0, 1 / 10, 11, 10, 0, 1 / 2⟩ : MPPTracker ℚ) 1 1).2 = 11 - 1 / 10 ∧
    (RunMPPTracking (⟨4, 0, 1 / 10, -1, 10, 0, 1 / 2⟩ : MPPTracker ℚ) 1 1).2 = -1 + 1 / 10 ∧
    (RunMPPTracking (⟨4, 0, 1 / 10, 2, 10, 0, 1 / 2⟩ : MPPTracker ℚ) 1 1).2 = 2 - 1 / 10 ∧
    (RunMPPTracking (⟨4, 4, 1 / 10, 2, 10, 0, 1 / 2⟩ : MPPTracker ℚ) 1 1).2 = 2 + 1 / 10 :=
  ⟨(mppt_perturb_observe_table (⟨0, 0, 1 / 10, 2, 10, 0, 1 / 2⟩ : MPPTracker ℚ) 1 1).1
      (by norm_num) (by norm_num),
    (mppt_perturb_observe_table (⟨0, 4, 1 / 10, 2, 10, 0, 1 / 2⟩ : MPPTracker ℚ) 1 1).2.1
      (by norm_num) (by norm_num),
    (mppt_perturb_observe_table (⟨4, 0, 1 / 10, 11, 10, 0, 1 / 2⟩ : MPPTracker ℚ) 1 1).2.2.1
      (by norm_num) (by norm_num),
    (mppt_perturb_observe_table (⟨4, 0, 1 / 10, -1, 10, 0, 1 / 2⟩ : MPPTracker ℚ) 1 1).2.2.2.1
      (by norm_num) (by norm_num) (by norm_num),
    (mppt_perturb_observe_table (⟨4, 0, 1 / 10, 2, 10, 0, 1 / 2⟩ : MPPTracker ℚ) 1 1).2.2.2.2.1
      (by norm_num) (by norm_num) (by norm_num) (by norm_num),
    (mppt_perturb_observe_table (⟨4, 4, 1 / 10, 2, 10, 0, 1 / 2⟩ : MPPTracker ℚ) 1 1).2.2.2.2.2.1
      (by norm_num) (by norm_num) (by norm_num) (by norm_num)⟩

/-- C23: RunMPPTracking called with a negative power returns the same reference
and leaves the same new state as the call with power 0, and likewise for a
negative measurement; the stored filtered values are
iir_lpf * max(x, 0) + (1 - iir_lpf) * x_prev for x the power and the
measurement. -/
theorem mppt_inputs_floored_at_zero (me : MPPTracker K) (measurement power : K) :
    (power < 0 → RunMPPTracking me measurement power = RunMPPTracking me measurement 0) ∧
    (measurement < 0 → RunMPPTracking me measurement power = RunMPPTracking me 0 power) ∧
    (RunMPPTracking me measurement power).1.power_prev
      = me.iir_lpf * max power 0 + (1 - me.iir_lpf) * me.power_prev ∧
    (RunMPPTracking me measurement power).1.meas_prev
      = me.iir_lpf * max measurement 0 + (1 - me.iir_lpf) * me.meas_prev := by
  have hmax : ∀ x : K, (if x < 0 then 0 else x) = max x 0 := by
    intro x
    split_ifs with h
    · exact (max_eq_right h.le).symm
    · exact (max_eq_left (not_lt.mp h)).symm
  refine ⟨?_, ?_, ?_, ?_⟩
  · intro h
    simp only [RunMPPTracking, if_pos h, lt_irrefl, if_false]
  · intro h
    simp only [RunMPPTracking, if_pos h, lt_irrefl, if_false]
  · rw [← hmax]; rfl
  · rw [← hmax]; rfl

/-- Witness for C23: zero history, step 1/10, reference 2, limits [0, 10], filter
coefficient 1/2: the call with power -3 equals the call with power 0, and the
call with measurement -2 equals the call with measurement 0. -/
theorem mppt_inputs_floored_at_zero_witness :
    RunMPPTracking (⟨0, 0, 1 / 10, 2, 10, 0, 1 / 2⟩ : MPPTracker ℚ) 1 (-3)
      = RunMPPTracking (⟨0, 0, 1 / 10, 2, 10, 0, 1 / 2⟩ : MPPTracker ℚ) 1 0 ∧
    RunMPPTracking (⟨0, 0, 1 / 10, 2, 10, 0, 1 / 2⟩ : MPPTracker ℚ) (-2) 1
      = RunMPPTracking (⟨0, 0, 1 / 10, 2, 10, 0, 1 / 2⟩ : MPPTracker ℚ) 0 1 :=
  ⟨(mppt_inputs_floored_at_zero (⟨0, 0, 1 / 10, 2, 10, 0, 1 / 2⟩ : MPPTracker ℚ) 1 (-3)).1
      (by norm_num),
    (mppt_inputs_floored_at_zero (⟨0, 0, 1 / 10, 2, 10, 0, 1 / 2⟩ : MPPTracker ℚ) (-2) 1).2.1
      (by norm_num)⟩

/-- RunFAE writes neither coefficient. -/
lemma RunFAE_coefficients (me : FAEParameters K) (delta : K) :
    (RunFAE me delta).1.a = me.a ∧ (RunFAE me delta).1.b = me.b := ⟨rfl, rfl⟩

/-- Any sequence of RunFAE calls leaves both coefficients as they were. -/
lemma RunFAE_foldl_coefficients (deltas : List K) (me : FAEParameters K) :
    (deltas.foldl (fun s d => (RunFAE s d).1) me).a = me.a ∧
    (deltas.foldl (fun s d => (RunFAE s d).1) me).b = me.b := by
  induction deltas generalizing me with
  | nil => exact ⟨rfl, rfl⟩
  | cons x xs ih =>
    rw [List.foldl_cons]
    exact ⟨(ih _).1.trans (RunFAE_coefficients me x).1, (ih _).2.trans (RunFAE_coefficients me x).2⟩

/-- C24: after ConfigFAE(R, L, Ts) with L + R * Ts ≠ 0 the state is 0 and the
coefficients are a = Ts / (L + R * Ts) and b = L / (L + R * Ts); every RunFAE
call sets the state to a * delta + b * state, returns it and changes neither a
nor b, so after any sequence of calls the next call still returns
Ts / (L + R * Ts) * delta + L / (L + R * Ts) * state. -/
theorem fae_first_order_observer (R L Ts : K) (_h : L + R * Ts ≠ 0) :
    ((ConfigFAE R L Ts).state = 0 ∧
      (ConfigFAE R L Ts).a = Ts / (L + R * Ts) ∧
      (ConfigFAE R L Ts).b = L / (L + R * Ts)) ∧
    (∀ (me : FAEParameters K) (delta : K),
      (RunFAE me delta).2 = me.a * delta + me.b * me.state ∧
      (RunFAE me delta).1.state = (RunFAE me delta).2 ∧
      (RunFAE me delta).1.a = me.a ∧ (RunFAE me delta).1.b = me.b) ∧
    (∀ (deltas : List K) (delta : K),
      (RunFAE (deltas.foldl (fun s d => (RunFAE s d).1) (ConfigFAE R L Ts)) delta).2
        = Ts / (L + R * Ts) * delta + L / (L + R * Ts) *
          (deltas.foldl (fun s d => (RunFAE s d).1) (ConfigFAE R L Ts)).state) := by
  refine ⟨⟨rfl, rfl, rfl⟩, fun _ _ => ⟨rfl, rfl, rfl, rfl⟩, fun deltas delta => ?_⟩
  have hc := RunFAE_foldl_coefficients deltas (ConfigFAE R L Ts)
  show (deltas.foldl (fun s d => (RunFAE s d).1) (ConfigFAE R L Ts)).a * delta
      + (deltas.foldl (fun s d => (RunFAE s d).1) (ConfigFAE R L Ts)).b *
        (deltas.foldl (fun s d => (RunFAE s d).1) (ConfigFAE R L Ts)).state = _
  rw [hc.1, hc.2]
  rfl

/-- Witness for C24: R = 1, L = 1, Ts = 1 (so a = b = 1/2): after the inputs 2
and 4 the call with input 6 returns 1/2 * 6 + 1/2 * state. -/
theorem fae_first_order_observer_witness :
    (RunFAE (([2, 4] : List ℚ).foldl (fun s d => (RunFAE s d).1) (ConfigFAE 1 1 1)) 6).2
      = 1 / (1 + 1 * 1) * 6 + 1 / (1 + 1 * 1) *
        (([2, 4] : List ℚ).foldl (fun s d => (RunFAE s d).1) (ConfigFAE 1 1 1)).state :=
  (fae_first_order_observer (1 : ℚ) 1 1 (by norm_num)).2.2 [2, 4] 6

/-- C25 (as stated, refuted): for R = 1/10, L = 1/100000 and Ts = 1/10000, all
positive, ConfigFAE computes a = 5, which is not below 1. -/
theorem fae_coefficient_a_not_below_one :
    ¬ (∀ R L Ts : ℚ, 0 < R → 0 < L → 0 < Ts →
        0 < (ConfigFAE R L Ts).a ∧ (ConfigFAE R L Ts).a < 1 ∧
        0 < (ConfigFAE R L Ts).b ∧ (ConfigFAE R L Ts).b < 1) := by
  intro h
  have h1 := (h (1 / 10) (1 / 100000) (1 / 10000) (by norm_num) (by norm_num)
    (by norm_num)).2.1
  norm_num [ConfigFAE] at h1

/-- C25 (amended): for every R > 0, L > 0 and Ts > 0 the coefficients computed by
ConfigFAE satisfy 0 < a, R * a < 1 (that is a < 1 / R), 0 < b < 1 and
R * a + b = 1; a < 1 holds exactly when Ts < L + R * Ts. -/
theorem fae_coefficient_bounds (R L Ts : K) (hR : 0 < R) (hL : 0 < L) (hT : 0 < Ts) :
    0 < (ConfigFAE R L Ts).a ∧ R * (ConfigFAE R L Ts).a < 1 ∧
    0 < (ConfigFAE R L Ts).b ∧ (ConfigFAE R L Ts).b < 1 ∧
    R * (ConfigFAE R L Ts).a + (ConfigFAE R L Ts).b = 1 ∧
    ((ConfigFAE R L Ts).a < 1 ↔ Ts < L + R * Ts) := by
  have hd : 0 < L + R * Ts := by positivity
  have ha : (ConfigFAE R L Ts).a = Ts / (L + R * Ts) := rfl
  have hb : (ConfigFAE R L Ts).b = L / (L + R * Ts) := rfl
  rw [ha, hb]
  refine ⟨div_pos hT hd, ?_, div_pos hL hd, ?_, ?_, ?_⟩
  · rw [← mul_div_assoc, div_lt_one hd]
    linarith
  · rw [div_lt_one hd]
    nlinarith
  · field_simp
    ring
  · rw [div_lt_one hd]

/-- Witness for C25 (amended): R = 1/10, L = 1/1000, Ts = 1/10000, for which
a = 10/101 and b = 100/101. -/
theorem fae_coefficient_bounds_witness :
    0 < (ConfigFAE (1 / 10 : ℚ) (1 / 1000) (1 / 10000)).a ∧
    (ConfigFAE (1 / 10 : ℚ) (1 / 1000) (1 / 10000)).b < 1 :=
  ⟨(fae_coefficient_bounds (1 / 10 : ℚ) (1 / 1000) (1 / 10000) (by norm_num) (by norm_num)
      (by norm_num)).1,
    (fae_coefficient_bounds (1 / 10 : ℚ) (1 / 1000) (1 / 10000) (by norm_num) (by norm_num)
      (by norm_num)).2.2.2.1⟩

/-! ## Theorems: shared PLL update and SOGI linearity -/

/-- The controller, frequency and angle update of RunSOGIPLL1 is the one of
RunDQPLL on an input whose imaginary component is the projected SOGI output. -/
lemma RunSOGIPLL1_update (csin ccos : K → K) (s : SOGIPLL1Parameters K) (vin : K) :
    (RunSOGIPLL1 csin ccos s vin).1.PI_reg
      = (RunDQPLL ⟨s.theta, s.omega, s.omega0, s.ts, s.PI_reg⟩
          ⟨0, -csin s.theta * (RunSOGI3 s.SOGI vin).2.real
            + ccos s.theta * (RunSOGI3 s.SOGI vin).2.imaginary, 0⟩).1.PI_reg ∧
    (RunSOGIPLL1 csin ccos s vin).1.omega
      = (RunDQPLL ⟨s.theta, s.omega, s.omega0, s.ts, s.PI_reg⟩
          ⟨0, -csin s.theta * (RunSOGI3 s.SOGI vin).2.real
            + ccos s.theta * (RunSOGI3 s.SOGI vin).2.imaginary, 0⟩).1.omega ∧
    (RunSOGIPLL1 csin ccos s vin).1.theta
      = (RunDQPLL ⟨s.theta, s.omega, s.omega0, s.ts, s.PI_reg⟩
          ⟨0, -csin s.theta * (RunSOGI3 s.SOGI vin).2.real
            + ccos s.theta * (RunSOGI3 s.SOGI vin).2.imaginary, 0⟩).1.theta ∧
    (RunSOGIPLL1 csin ccos s vin).2.2
      = (RunDQPLL ⟨s.theta, s.omega, s.omega0, s.ts, s.PI_reg⟩
          ⟨0, -csin s.theta * (RunSOGI3 s.SOGI vin).2.real
            + ccos s.theta * (RunSOGI3 s.SOGI vin).2.imaginary, 0⟩).2 :=
  ⟨rfl, rfl, rfl, rfl⟩

/-- The controller, frequency and angle update of RunDSOGIPLL3 is the one of
RunDQPLL on an input whose imaginary component is the projected cross-sum. -/
lemma RunDSOGIPLL3_update (csin ccos : K → K) (t : DSOGIPLL3Parameters K) (w : SpaceVector K) :
    (RunDSOGIPLL3 csin ccos t w).1.PI_reg
      = (RunDQPLL ⟨t.theta, t.omega, t.omega0, t.ts, t.PI_reg⟩
          ⟨0, -csin t.theta * ((RunSOGI3 t.SOGIa w.real).2.real
              - (RunSOGI3 t.SOGIb w.imaginary).2.imaginary)
            + ccos t.theta * ((RunSOGI3 t.SOGIa w.real).2.imaginary
              + (RunSOGI3 t.SOGIb w.imaginary).2.real), 0⟩).1.PI_reg ∧
    (RunDSOGIPLL3 csin ccos t w).1.omega
      = (RunDQPLL ⟨t.theta, t.omega, t.omega0, t.ts, t.PI_reg⟩
          ⟨0, -csin t.theta * ((RunSOGI3 t.SOGIa w.real).2.real
              - (RunSOGI3 t.SOGIb w.imaginary).2.imaginary)
            + ccos t.theta * ((RunSOGI3 t.SOGIa w.real).2.imaginary
              + (RunSOGI3 t.SOGIb w.imaginary).2.real), 0⟩).1.omega ∧
    (RunDSOGIPLL3 csin ccos t w).1.theta
      = (RunDQPLL ⟨t.theta, t.omega, t.omega0, t.ts, t.PI_reg⟩
          ⟨0, -csin t.theta * ((RunSOGI3 t.SOGIa w.real).2.real
              - (RunSOGI3 t.SOGIb w.imaginary).2.imaginary)
            + ccos t.theta * ((RunSOGI3 t.SOGIa w.real).2.imaginary
              + (RunSOGI3 t.SOGIb w.imaginary).2.real), 0⟩).1.theta ∧
    (RunDSOGIPLL3 csin ccos t w).2
      = (RunDQPLL ⟨t.theta, t.omega, t.omega0, t.ts, t.PI_reg⟩
          ⟨0, -csin t.theta * ((RunSOGI3 t.SOGIa w.real).2.real
              - (RunSOGI3 t.SOGIb w.imaginary).2.imaginary)
            + ccos t.theta * ((RunSOGI3 t.SOGIa w.real).2.imaginary
              + (RunSOGI3 t.SOGIb w.imaginary).2.real), 0⟩).2 :=
  ⟨rfl, rfl, rfl, rfl⟩

/-- C29: the three PLL variants apply the same controller/integrate/wrap update:
for equal theta, omega0, ts and PI_reg and an equal quadrature error (v.imaginary
for RunDQPLL, the projected SOGI output for RunSOGIPLL1 and for RunDSOGIPLL3),
RunSOGIPLL1 and RunDSOGIPLL3 produce the same PI_reg', omega' and theta' and
return the same value as RunDQPLL. -/
theorem pll_variants_share_update (csin ccos : K → K) (d : DQPLLParameters K)
    (s : SOGIPLL1Parameters K) (t : DSOGIPLL3Parameters K) (v w : SpaceVector K) (vin : K)
    (hs1 : s.theta = d.theta) (hs2 : s.omega0 = d.omega0) (hs3 : s.ts = d.ts)
    (hs4 : s.PI_reg = d.PI_reg)
    (ht1 : t.theta = d.theta) (ht2 : t.omega0 = d.omega0) (ht3 : t.ts = d.ts)
    (ht4 : t.PI_reg = d.PI_reg)
    (hqs : -csin s.theta * (RunSOGI3 s.SOGI vin).2.real
      + ccos s.theta * (RunSOGI3 s.SOGI vin).2.imaginary = v.imaginary)
    (hqt : -csin t.theta * ((RunSOGI3 t.SOGIa w.real).2.real
        - (RunSOGI3 t.SOGIb w.imaginary).2.imaginary)
      + ccos t.theta * ((RunSOGI3 t.SOGIa w.real).2.imaginary
        + (RunSOGI3 t.SOGIb w.imaginary).2.real) = v.imaginary) :
    ((RunSOGIPLL1 csin ccos s vin).1.PI_reg = (RunDQPLL d v).1.PI_reg ∧
      (RunSOGIPLL1 csin ccos s vin).1.omega = (RunDQPLL d v).1.omega ∧
      (RunSOGIPLL1 csin ccos s vin).1.theta = (RunDQPLL d v).1.theta ∧
      (RunSOGIPLL1 csin ccos s vin).2.2 = (RunDQPLL d v).2) ∧
    ((RunDSOGIPLL3 csin ccos t w).1.PI_reg = (RunDQPLL d v).1.PI_reg ∧
      (RunDSOGIPLL3 csin ccos t w).1.omega = (RunDQPLL d v).1.omega ∧
      (RunDSOGIPLL3 csin ccos t w).1.theta = (RunDQPLL d v).1.theta ∧
      (RunDSOGIPLL3 csin ccos t w).2 = (RunDQPLL d v).2) := by
  have es : RunDQPLL ⟨s.theta, s.omega, s.omega0, s.ts, s.PI_reg⟩
      ⟨0, -csin s.theta * (RunSOGI3 s.SOGI vin).2.real
        + ccos s.theta * (RunSOGI3 s.SOGI vin).2.imaginary, 0⟩
      = RunDQPLL { d with omega := s.omega } ⟨0, v.imaginary, 0⟩ := by
    rw [hqs, hs1, hs2, hs3, hs4]
  have et : RunDQPLL ⟨t.theta, t.omega, t.omega0, t.ts, t.PI_reg⟩
      ⟨0, -csin t.theta * ((RunSOGI3 t.SOGIa w.real).2.real
          - (RunSOGI3 t.SOGIb w.imaginary).2.imaginary)
        + ccos t.theta * ((RunSOGI3 t.SOGIa w.real).2.imaginary
          + (RunSOGI3 t.SOGIb w.imaginary).2.real), 0⟩
      = RunDQPLL { d with omega := t.omega } ⟨0, v.imaginary, 0⟩ := by
    rw [hqt, ht1, ht2, ht3, ht4]
  have ed : ∀ om : K, RunDQPLL { d with omega := om } ⟨0, v.imaginary, 0⟩ = RunDQPLL d v :=
    fun _ => rfl
  rw [ed] at es et
  obtain ⟨a1, a2, a3, a4⟩ := RunSOGIPLL1_update csin ccos s vin
  obtain ⟨b1, b2, b3, b4⟩ := RunDSOGIPLL3_update csin ccos t w
  rw [es] at a1 a2 a3 a4
  rw [et] at b1 b2 b3 b4
  exact ⟨⟨a1, a2, a3, a4⟩, ⟨b1, b2, b3, b4⟩⟩

/-- Witness for C29, over the reals with the real sine and cosine: the states
produced by ConfigDQPLL, ConfigSOGIPLL1 and ConfigDSOGIPLL3 with kp = 1, ki = 1,
SOGI gain 1, omega0 = 314 and tsample = 1/10000, the DQPLL input (0, 0, 0), the
SOGIPLL1 input 1 and the DSOGIPLL3 input (1, 0, 0), whose projected errors are
all 0. -/
theorem pll_variants_share_update_witness :
    (RunSOGIPLL1 Real.sin Real.cos (ConfigSOGIPLL1 1 1 1 314 (1 / 10000)) 1).2.2
      = (RunDQPLL (ConfigDQPLL (1 : ℝ) 1 314 (1 / 10000)) ⟨0, 0, 0⟩).2 ∧
    (RunDSOGIPLL3 Real.sin Real.cos (ConfigDSOGIPLL3 1 1 1 314 (1 / 10000)) ⟨1, 0, 0⟩).2
      = (RunDQPLL (ConfigDQPLL (1 : ℝ) 1 314 (1 / 10000)) ⟨0, 0, 0⟩).2 := by
  have h := pll_variants_share_update Real.sin Real.cos
    (ConfigDQPLL (1 : ℝ) 1 314 (1 / 10000)) (ConfigSOGIPLL1 1 1 1 314 (1 / 10000))
    (ConfigDSOGIPLL3 1 1 1 314 (1 / 10000)) ⟨0, 0, 0⟩ ⟨1, 0, 0⟩ 1
    rfl rfl rfl rfl rfl rfl rfl rfl
    (by norm_num [RunSOGI3, ConfigSOGIPLL1, ConfigSOGI3])
    (by norm_num [RunSOGI3, ConfigDSOGIPLL3, ConfigSOGI3])
  exact ⟨h.1.2.2.2, h.2.2.2.2⟩

/-- C30: for fixed omega, gain and constant RunSOGI3 is linear in the pair
(stored state, measurement): on the component-wise sum of two states with the
measurement m1 + m2 it yields the component-wise sum of the two new states and
of the two returned vectors; on the state and measurement scaled by c it yields
the new state and the returned vector scaled by c; and the all-zero state with
measurement 0 is a fixed point returning (0, 0, 0). -/
theorem sogi3_linear_recursion (a b : SOGI3Parameters K) (m1 m2 c : K)
    (hω : b.omega = a.omega) (hg : b.gain = a.gain) (hc : b.constant = a.constant) :
    ((RunSOGI3 (addSOGI3 a b) (m1 + m2)).1 = addSOGI3 (RunSOGI3 a m1).1 (RunSOGI3 b m2).1 ∧
      (RunSOGI3 (addSOGI3 a b) (m1 + m2)).2
        = ⟨(RunSOGI3 a m1).2.real + (RunSOGI3 b m2).2.real,
            (RunSOGI3 a m1).2.imaginary + (RunSOGI3 b m2).2.imaginary,
            (RunSOGI3 a m1).2.offset + (RunSOGI3 b m2).2.offset⟩) ∧
    ((RunSOGI3 (scaleSOGI3 c a) (c * m1)).1 = scaleSOGI3 c (RunSOGI3 a m1).1 ∧
      (RunSOGI3 (scaleSOGI3 c a) (c * m1)).2
        = ⟨c * (RunSOGI3 a m1).2.real, c * (RunSOGI3 a m1).2.imaginary,
            c * (RunSOGI3 a m1).2.offset⟩) ∧
    RunSOGI3 (⟨⟨0, 0, 0, 0⟩, ⟨0, 0, 0, 0⟩, a.omega, a.gain, a.constant⟩ : SOGI3Parameters K) 0
      = (⟨⟨0, 0, 0, 0⟩, ⟨0, 0, 0, 0⟩, a.omega, a.gain, a.constant⟩, ⟨0, 0, 0⟩) := by
  refine ⟨⟨?_, ?_⟩, ⟨?_, ?_⟩, ?_⟩
  · simp only [RunSOGI3, addSOGI3, addSOGI3States, hω, hg, hc, SOGI3Parameters.mk.injEq,
      SOGI3States.mk.injEq, and_true, true_and]
    refine ⟨⟨?_, ?_⟩, ⟨?_, ?_⟩⟩ <;> ring
  · simp only [RunSOGI3, addSOGI3, addSOGI3States, hω, hg, hc, SpaceVector.mk.injEq]
    refine ⟨?_, ?_, ?_⟩ <;> ring
  · simp only [RunSOGI3, scaleSOGI3, scaleSOGI3States, SOGI3Parameters.mk.injEq,
      SOGI3States.mk.injEq, and_true, true_and]
    refine ⟨⟨?_, ?_⟩, ⟨?_, ?_⟩⟩ <;> ring
  · simp only [RunSOGI3, scaleSOGI3, scaleSOGI3States, SpaceVector.mk.injEq]
    refine ⟨?_, ?_, ?_⟩ <;> ring
  · simp [RunSOGI3]

/-- Witness for C30: two SOGI states with omega = 314, gain = 1 and
constant = 1/120000, measurements 1 and 2: the returned vector for the summed
state and measurement 3 has as real part the sum of the two real parts. -/
theorem sogi3_linear_recursion_witness :
    (RunSOGI3 (addSOGI3 (⟨⟨1, 2, 3, 4⟩, ⟨5, 6, 7, 8⟩, 314, 1, 1 / 120000⟩ : SOGI3Parameters ℚ)
        ⟨⟨2, 0, 1, 0⟩, ⟨0, 1, 0, 3⟩, 314, 1, 1 / 120000⟩) (1 + 2)).2.real
      = (RunSOGI3 (⟨⟨1, 2, 3, 4⟩, ⟨5, 6, 7, 8⟩, 314, 1, 1 / 120000⟩ : SOGI3Parameters ℚ) 1).2.real
        + (RunSOGI3 (⟨⟨2, 0, 1, 0⟩, ⟨0, 1, 0, 3⟩, 314, 1, 1 / 120000⟩ : SOGI3Parameters ℚ)
            2).2.real :=
  congrArg SpaceVector.real
    (sogi3_linear_recursion (⟨⟨1, 2, 3, 4⟩, ⟨5, 6, 7, 8⟩, 314, 1, 1 / 120000⟩ : SOGI3Parameters ℚ)
      ⟨⟨2, 0, 1, 0⟩, ⟨0, 1, 0, 3⟩, 314, 1, 1 / 120000⟩ 1 2 1 rfl rfl rfl).1.2

/-! ## Theorems: SOGI unit-step response -/

/-- Product of a factor of [wl, wh], 0 ≤ wl, with a value of [xl, xh]. -/
lemma mul_enclosed (w x wl wh xl xh : ℝ) (h0 : 0 ≤ wl) (h1 : wl ≤ w) (h2 : w ≤ wh)
    (hxl : xl ≤ x) (hxh : x ≤ xh) :
    min (wl * xl) (wh * xl) ≤ w * x ∧ w * x ≤ max (wl * xh) (wh * xh) := by
  have hw : 0 ≤ w := le_trans h0 h1
  constructor
  · have hx : w * xl ≤ w * x := mul_le_mul_of_nonneg_left hxl hw
    rcases le_total 0 xl with hp | hn
    · exact le_trans (min_le_left _ _) (le_trans (mul_le_mul_of_nonneg_right h1 hp) hx)
    · exact le_trans (min_le_right _ _)
        (le_trans (mul_le_mul_of_nonpos_right h2 hn) hx)
  · have hx : w * x ≤ w * xh := mul_le_mul_of_nonneg_left hxh hw
    rcases le_total 0 xh with hp | hn
    · exact le_trans hx (le_trans (mul_le_mul_of_nonneg_right h2 hp) (le_max_right _ _))
    · exact le_trans hx (le_trans (mul_le_mul_of_nonpos_right h1 hn) (le_max_left _ _))

/-- One RunSOGI3 call with gain 1 and measurement 1 maps an enclosed state into
the stepped enclosure. -/
lemma enclosureStep_sound (wl wh : ℚ) (e : SOGI3Enclosure) (s : SOGI3Parameters ℝ)
    (h0 : (0 : ℝ) ≤ (wl : ℝ)) (h1 : (wl : ℝ) ≤ s.constant * s.omega)
    (h2 : s.constant * s.omega ≤ (wh : ℝ)) (hg : s.gain = 1) (he : Encloses e s) :
    Encloses (enclosureStep wl wh e) (RunSOGI3 s 1).1 := by
  obtain ⟨⟨a1l, a1h⟩, ⟨a2l, a2h⟩, ⟨a3l, a3h⟩, ⟨aol, aoh⟩, ⟨b1l, b1h⟩, ⟨b2l, b2h⟩, ⟨b3l, b3h⟩,
    ⟨bol, boh⟩⟩ := he
  have hf := mul_enclosed (s.constant * s.omega)
    (-s.states1.output + s.gain * (1 - s.states0.output)) wl wh
    (-(e.boh : ℝ) + (1 - (e.aoh : ℝ))) (-(e.bol : ℝ) + (1 - (e.aol : ℝ))) h0 h1 h2
    (by rw [hg]; linarith) (by rw [hg]; linarith)
  have hq := mul_enclosed (s.constant * s.omega) s.states0.output wl wh
    (e.aol : ℝ) (e.aoh : ℝ) h0 h1 h2 aol aoh
  simp only [Encloses, enclosureStep, RunSOGI3]
  push_cast
  refine ⟨⟨?_, ?_⟩, ⟨a1l, a1h⟩, ⟨a2l, a2h⟩, ⟨?_, ?_⟩, ⟨?_, ?_⟩, ⟨b1l, b1h⟩, ⟨b2l, b2h⟩,
    ⟨?_, ?_⟩⟩
  · linarith [hf.1]
  · linarith [hf.2]
  · linarith [hf.1]
  · linarith [hf.2]
  · linarith [hq.1]
  · linarith [hq.2]
  · linarith [hq.1]
  · linarith [hq.2]

/-- RunSOGI3 writes neither omega, gain nor constant, for any number of calls
with measurement 1. -/
lemma RunSOGI3_iterate_frame (s : SOGI3Parameters ℝ) (n : ℕ) :
    ((fun t => (RunSOGI3 t 1).1)^[n] s).omega = s.omega ∧
    ((fun t => (RunSOGI3 t 1).1)^[n] s).gain = s.gain ∧
    ((fun t => (RunSOGI3 t 1).1)^[n] s).constant = s.constant := by
  induction n with
  | zero => exact ⟨rfl, rfl, rfl⟩
  | succ k ih =>
    rw [Function.iterate_succ_apply']
    exact ih

/-- After any number of RunSOGI3 calls with gain 1 and measurement 1 the state
lies in the enclosure stepped the same number of times. -/
lemma enclosure_iterate_sound (wl wh : ℚ) (e : SOGI3Enclosure) (s : SOGI3Parameters ℝ)
    (h0 : (0 : ℝ) ≤ (wl : ℝ)) (h1 : (wl : ℝ) ≤ s.constant * s.omega)
    (h2 : s.constant * s.omega ≤ (wh : ℝ)) (hg : s.gain = 1) (he : Encloses e s) (n : ℕ) :
    Encloses ((enclosureStep wl wh)^[n] e) ((fun t => (RunSOGI3 t 1).1)^[n] s) := by
  induction n with
  | zero => exact he
  | succ k ih =>
    rw [Function.iterate_succ_apply', Function.iterate_succ_apply']
    obtain ⟨f1, f2, f3⟩ := RunSOGI3_iterate_frame s k
    exact enclosureStep_sound wl wh _ _ h0 (by rw [f3, f1]; exact h1)
      (by rw [f3, f1]; exact h2) (by rw [f2]; exact hg) ih

/-- A successful enclosureCheck over n steps gives enclosureOk after each of
the steps 1, ..., n. -/
lemma enclosureCheck_ok (wl wh : ℚ) (n : ℕ) (e : SOGI3Enclosure)
    (h : enclosureCheck wl wh n e = true) (k : ℕ) (hk : k < n) :
    enclosureOk ((enclosureStep wl wh)^[k + 1] e) = true := by
  induction n generalizing e k with
  | zero => exact absurd hk (Nat.not_lt_zero k)
  | succ m ih =>
    simp only [enclosureCheck, Bool.and_eq_true] at h
    cases k with
    | zero => exact h.1
    | succ j =>
      rw [Function.iterate_succ_apply]
      exact ih (enclosureStep wl wh e) h.2 j (Nat.lt_of_succ_lt_succ hk)

/-- An enclosure that passes enclosureOk bounds both outputs of an enclosed
state by 2 in absolute value. -/
lemma enclosureOk_bounds (e : SOGI3Enclosure) (s : SOGI3Parameters ℝ)
    (hok : enclosureOk e = true) (he : Encloses e s) :
    |s.states0.output| ≤ 2 ∧ |s.states1.output| ≤ 2 := by
  simp only [enclosureOk, Bool.and_eq_true, decide_eq_true_eq] at hok
  obtain ⟨⟨⟨c1, c2⟩, c3⟩, c4⟩ := hok
  obtain ⟨-, -, -, ⟨aol, aoh⟩, -, -, -, ⟨bol, boh⟩⟩ := he
  have d1 : ((-2 : ℚ) : ℝ) ≤ (e.aol : ℝ) := by exact_mod_cast c1
  have d2 : (e.aoh : ℝ) ≤ ((2 : ℚ) : ℝ) := by exact_mod_cast c2
  have d3 : ((-2 : ℚ) : ℝ) ≤ (e.bol : ℝ) := by exact_mod_cast c3
  have d4 : (e.boh : ℝ) ≤ ((2 : ℚ) : ℝ) := by exact_mod_cast c4
  push_cast at d1 d2 d3 d4
  exact ⟨abs_le.mpr ⟨by linarith, by linarith⟩, abs_le.mpr ⟨by linarith, by linarith⟩⟩

/-- The interval computation for 300 steps with constant * omega in
[stepGainLow, stepGainHigh] keeps both enclosed outputs in [-2, 2]. -/
lemma enclosureCheck_unit_step :
    enclosureCheck stepGainLow stepGainHigh 300 enclosureZero = true := by
  decide!

/-- C27: after ConfigSOGI3 with gain = 1, omega0 = 2 * π * 50 and
tsample = 1/10000 (exact real arithmetic), calling RunSOGI3 with measurement 1
on every tick, both components of the vector returned by the tick of index n
(the first tick has index 0) have absolute value at most 2, for every n < 300. -/
theorem sogi3_unit_step_bounded (n : ℕ) (hn : n < 300) :
    |(RunSOGI3 ((fun t => (RunSOGI3 t 1).1)^[n]
        (ConfigSOGI3 1 (2 * Real.pi * 50) (1 / 10000))) 1).2.real| ≤ 2 ∧
    |(RunSOGI3 ((fun t => (RunSOGI3 t 1).1)^[n]
        (ConfigSOGI3 1 (2 * Real.pi * 50) (1 / 10000))) 1).2.imaginary| ≤ 2 := by
  have hw : (ConfigSOGI3 (1 : ℝ) (2 * Real.pi * 50) (1 / 10000)).constant
      * (ConfigSOGI3 (1 : ℝ) (2 * Real.pi * 50) (1 / 10000)).omega = Real.pi / 1200 := by
    simp only [ConfigSOGI3]
    ring
  have hlo := Real.pi_gt_d20
  have hhi := Real.pi_lt_d20
  have h0 : (0 : ℝ) ≤ (stepGainLow : ℝ) := by
    have : (0 : ℚ) ≤ stepGainLow := by simp only [stepGainLow]; norm_num
    exact_mod_cast this
  have h1 : (stepGainLow : ℝ) ≤ (ConfigSOGI3 (1 : ℝ) (2 * Real.pi * 50) (1 / 10000)).constant
      * (ConfigSOGI3 (1 : ℝ) (2 * Real.pi * 50) (1 / 10000)).omega := by
    rw [hw]
    simp only [stepGainLow]
    push_cast
    norm_num at hlo ⊢
    linarith
  have h2 : (ConfigSOGI3 (1 : ℝ) (2 * Real.pi * 50) (1 / 10000)).constant
      * (ConfigSOGI3 (1 : ℝ) (2 * Real.pi * 50) (1 / 10000)).omega ≤ (stepGainHigh : ℝ) := by
    rw [hw]
    simp only [stepGainHigh]
    push_cast
    norm_num at hhi ⊢
    linarith
  have hz : Encloses enclosureZero (ConfigSOGI3 (1 : ℝ) (2 * Real.pi * 50) (1 / 10000)) := by
    simp [Encloses, enclosureZero, ConfigSOGI3]
  have henc := enclosure_iterate_sound stepGainLow stepGainHigh enclosureZero
    (ConfigSOGI3 (1 : ℝ) (2 * Real.pi * 50) (1 / 10000)) h0 h1 h2 rfl hz (n + 1)
  have hok := enclosureCheck_ok stepGainLow stepGainHigh 300 enclosureZero
    enclosureCheck_unit_step n hn
  have hb := enclosureOk_bounds _ _ hok henc
  rw [Function.iterate_succ_apply'] at hb
  exact hb

/-- Witness for C27: the tick of index 299 (the 300th call). -/
theorem sogi3_unit_step_bounded_witness :
    |(RunSOGI3 ((fun t => (RunSOGI3 t 1).1)^[299]
        (ConfigSOGI3 1 (2 * Real.pi * 50) (1 / 10000))) 1).2.real| ≤ 2 ∧
    |(RunSOGI3 ((fun t => (RunSOGI3 t 1).1)^[299]
        (ConfigSOGI3 1 (2 * Real.pi * 50) (1 / 10000))) 1).2.imaginary| ≤ 2 :=
  sogi3_unit_step_bounded 299 (by norm_num)

/-! ## Theorems: the inlined PI step, the frequency band and the enabled signal -/

/-- The controller state and the frequency written by RunDQPLL are those of an
enabled RunPIController call on PI_reg with the error v.imaginary. -/
lemma RunDQPLL_controller (me : DQPLLParameters K) (v : SpaceVector K) :
    (RunDQPLL me v).1.PI_reg = (RunPIController true me.PI_reg v.imaginary).1 ∧
    (RunDQPLL me v).1.omega = me.omega0 + (RunPIController true me.PI_reg v.imaginary).2 := by
  exact ⟨rfl, rfl⟩

/-- C31: the controller step inlined in RunDQPLL, RunSOGIPLL1 and RunDSOGIPLL3 is
RunPIController applied to PI_reg with the same error q and the enabled signal
true: PI_reg' is its resulting state and omega' - omega0 is its return value,
where q is v.imaginary for RunDQPLL and the projected SOGI output for the other
two.  The PLL routines take no enabled signal, and where a disabled
RunPIController call would leave ui_prev = 0 the PLL keeps the integral state
of the enabled call. -/
theorem pll_inlines_enabled_pi_step (csin ccos : K → K) (d : DQPLLParameters K)
    (s : SOGIPLL1Parameters K) (t : DSOGIPLL3Parameters K) (v w : SpaceVector K) (vin : K) :
    ((RunDQPLL d v).1.PI_reg = (RunPIController true d.PI_reg v.imaginary).1 ∧
      (RunDQPLL d v).1.omega - d.omega0 = (RunPIController true d.PI_reg v.imaginary).2 ∧
      (RunPIController false d.PI_reg v.imaginary).1
        = { (RunDQPLL d v).1.PI_reg with ui_prev := 0 }) ∧
    ((RunSOGIPLL1 csin ccos s vin).1.PI_reg
        = (RunPIController true s.PI_reg
            (-csin s.theta * (RunSOGI3 s.SOGI vin).2.real
              + ccos s.theta * (RunSOGI3 s.SOGI vin).2.imaginary)).1 ∧
      (RunSOGIPLL1 csin ccos s vin).1.omega - s.omega0
        = (RunPIController true s.PI_reg
            (-csin s.theta * (RunSOGI3 s.SOGI vin).2.real
              + ccos s.theta * (RunSOGI3 s.SOGI vin).2.imaginary)).2 ∧
      (RunPIController false s.PI_reg
            (-csin s.theta * (RunSOGI3 s.SOGI vin).2.real
              + ccos s.theta * (RunSOGI3 s.SOGI vin).2.imaginary)).1
        = { (RunSOGIPLL1 csin ccos s vin).1.PI_reg with ui_prev := 0 }) ∧
    ((RunDSOGIPLL3 csin ccos t w).1.PI_reg
        = (RunPIController true t.PI_reg
            (-csin t.theta * ((RunSOGI3 t.SOGIa w.real).2.real
                - (RunSOGI3 t.SOGIb w.imaginary).2.imaginary)
              + ccos t.theta * ((RunSOGI3 t.SOGIa w.real).2.imaginary
                + (RunSOGI3 t.SOGIb w.imaginary).2.real))).1 ∧
      (RunDSOGIPLL3 csin ccos t w).1.omega - t.omega0
        = (RunPIController true t.PI_reg
            (-csin t.theta * ((RunSOGI3 t.SOGIa w.real).2.real
                - (RunSOGI3 t.SOGIb w.imaginary).2.imaginary)
              + ccos t.theta * ((RunSOGI3 t.SOGIa w.real).2.imaginary
                + (RunSOGI3 t.SOGIb w.imaginary).2.real))).2 ∧
      (RunPIController false t.PI_reg
            (-csin t.theta * ((RunSOGI3 t.SOGIa w.real).2.real
                - (RunSOGI3 t.SOGIb w.imaginary).2.imaginary)
              + ccos t.theta * ((RunSOGI3 t.SOGIa w.real).2.imaginary
                + (RunSOGI3 t.SOGIb w.imaginary).2.real))).1
        = { (RunDSOGIPLL3 csin ccos t w).1.PI_reg with ui_prev := 0 }) := by
  have key : ∀ (m : DQPLLParameters K) (q : K),
      (RunDQPLL m ⟨0, q, 0⟩).1.PI_reg = (RunPIController true m.PI_reg q).1 ∧
      (RunDQPLL m ⟨0, q, 0⟩).1.omega - m.omega0 = (RunPIController true m.PI_reg q).2 ∧
      (RunPIController false m.PI_reg q).1
        = { (RunDQPLL m ⟨0, q, 0⟩).1.PI_reg with ui_prev := 0 } := by
    intro m q
    obtain ⟨c1, c2⟩ := RunDQPLL_controller m ⟨0, q, 0⟩
    refine ⟨c1, ?_, ?_⟩
    · rw [c2]
      exact add_sub_cancel_left _ _
    · rw [c1]
      simp only [RunPIController, Bool.not_true, Bool.not_false, Bool.false_eq_true, if_false,
        if_true]
  refine ⟨key d v.imaginary, ?_, ?_⟩
  · obtain ⟨a1, a2, -, -⟩ := RunSOGIPLL1_update csin ccos s vin
    rw [a1, a2]
    exact key ⟨s.theta, s.omega, s.omega0, s.ts, s.PI_reg⟩ _
  · obtain ⟨b1, b2, -, -⟩ := RunDSOGIPLL3_update csin ccos t w
    rw [b1, b2]
    exact key ⟨t.theta, t.omega, t.omega0, t.ts, t.PI_reg⟩ _

/-- C33: for RunPIDController, RunPIController, RunIController and
RunPRController the returned value is the same whatever the enabled signal of
the call, and the state left by the disabled call is the state left by the
enabled call with ui_prev (and ui_prev2 for PR) set to 0, so ud_prev, e_prev
and e_prev2 are written as in the enabled call; the disabled call does not
force the output to zero: with kp = 2, ki = 1, limits [-1, 1], zero history and
error 5 the disabled RunPIDController call returns 1. -/
theorem controller_output_ignores_enabled (e1 e2 : Bool) (me : PIDController K)
    (pr : PRController K) (error : K) :
    ((RunPIDController e1 me error).2 = (RunPIDController e2 me error).2 ∧
      (RunPIController e1 me error).2 = (RunPIController e2 me error).2 ∧
      (RunIController e1 me error).2 = (RunIController e2 me error).2 ∧
      (RunPRController e1 pr error).2 = (RunPRController e2 pr error).2) ∧
    ((RunPIDController false me error).1
        = { (RunPIDController true me error).1 with ui_prev := 0 } ∧
      (RunPIController false me error).1
        = { (RunPIController true me error).1 with ui_prev := 0 } ∧
      (RunIController false me error).1
        = { (RunIController true me error).1 with ui_prev := 0 } ∧
      (RunPRController false pr error).1
        = { (RunPRController true pr error).1 with ui_prev := 0, ui_prev2 := 0 }) ∧
    ((RunPIDController false me error).1.ud_prev
        = me.b * (me.ud_prev + (me.N : K) * (error - me.e_prev)) ∧
      (RunPIDController false me error).1.e_prev = error ∧
      (RunPRController false pr error).1.e_prev2 = pr.e_prev ∧
      (RunPRController false pr error).1.e_prev = error) ∧
    (RunPIDController false (⟨2, 1, 1, -1, 10, 0, 0, 0, 0⟩ : PIDController ℚ) 5).2 = 1 := by
  refine ⟨⟨?_, ?_, ?_, ?_⟩, ⟨?_, ?_, ?_, ?_⟩, ⟨?_, ?_, ?_, ?_⟩, ?_⟩
  · rfl
  · rfl
  · rfl
  · cases e1 <;> cases e2 <;> rfl
  · simp only [RunPIDController, Bool.not_true, Bool.not_false, Bool.false_eq_true,
      if_false, if_true]
  · simp only [RunPIController, Bool.not_true, Bool.not_false, Bool.false_eq_true,
      if_false, if_true]
  · simp only [RunIController, Bool.not_true, Bool.not_false, Bool.false_eq_true,
      if_false, if_true]
  · simp only [RunPRController, Bool.not_true, Bool.not_false, Bool.false_eq_true,
      if_false, if_true]
  · simp only [RunPIDController]
    split_ifs <;> simp
  · simp only [RunPIDController]
    split_ifs <;> simp
  · simp [RunPRController]
  · simp [RunPRController]
  · norm_num [RunPIDController]

end Imperix
